import Mathlib

/-!
Verification development for the `composure` screenshot-composition core.

This file is a shallow embedding, in Lean 4, of the Python modules
`src/composer/balance.py`, `src/composer/detector.py` (interface only),
`src/composer/renderer.py`, `src/composer/pipeline.py` and
`src/models/composition.py`, together with theorems that settle the frozen
specification claims about them.

Modelling conventions:
* Images (`PImage`) are a width, a height, a PIL mode string, and a total
  pixel function returning RGBA components as naturals; PIL crops that reach
  outside the source pad with all-zero pixels, as `crop_image` does here.
* Python `int` is `ℤ`; Python `float` arithmetic is modelled by exact
  rational arithmetic over `ℚ` (the claims settled here are robust to this:
  every concrete evaluation below stays on values that are exact in binary
  floating point or does not depend on rounding at all).
* Python `int(x)` truncation toward zero is `py_int`; Python `//` on
  non-negative operands agrees with `ℤ` division and is written as such.
* Fallible Python code (a raised exception) is modelled with `Option`:
  `none` marks a raise.  In particular `a / b` with `b = 0` raises
  `ZeroDivisionError` in Python, while `ℚ` division returns 0, so every
  division site is guarded explicitly.
* The three content detectors of `detector.py` and the pixel-level raster
  primitives of PIL/cairo (LANCZOS resampling, Gaussian blur, gradient and
  rounded-rectangle rasterisation, alpha compositing) are parameters
  (`Detectors`, `RenderPrims`): their outputs are arbitrary, but — matching
  cairo/PIL semantics — painting a surface never changes its size, which the
  embedding encodes by letting primitives transform pixel content only.
  Every theorem below quantifies over these parameters, so each holds for
  the actual detector and raster implementations in particular.
-/

/-- RGBA pixel: four 8-bit channel values (range not enforced by the model). -/
abbrev Pix : Type := ℕ × ℕ × ℕ × ℕ

/-- Pixel content of an image or surface, as a total function. -/
abbrev PixMap : Type := ℕ → ℕ → Pix

/-- RGB color with float (here: rational) channels in [0,1], as used by cairo. -/
abbrev Color3 : Type := ℚ × ℚ × ℚ

/-- A PIL image: dimensions, mode string (for example "RGBA" or "RGB") and pixels. -/
structure PImage where
  width : ℕ
  height : ℕ
  mode : String
  px : PixMap

/-- Python `int(x)` for a float `x`: truncation toward zero. -/
def py_int (q : ℚ) : ℤ :=
  if 0 ≤ q.num then q.num / q.den else -((-q.num) / q.den)

/-- A solid single-color image, used to build concrete test inputs. -/
def solid_image (w h : ℕ) (c : Pix) : PImage :=
  ⟨w, h, "RGBA", fun _ _ => c⟩

/-- PIL `image.crop((l, t, r, b))`: the result has size `(r-l, b-t)` and reads
the source inside its bounds, padding with all-zero pixels outside (PIL pads
crops that extend beyond the source). -/
def crop_image (img : PImage) (l t r b : ℤ) : PImage :=
  ⟨(r - l).toNat, (b - t).toNat, img.mode, fun x y =>
    let sx : ℤ := l + x
    let sy : ℤ := t + y
    if 0 ≤ sx ∧ sx < img.width ∧ 0 ≤ sy ∧ sy < img.height then
      img.px sx.toNat sy.toNat
    else (0, 0, 0, 0)⟩

/-- PIL `image.convert('RGBA')` on the 4-channel pixel model: the stored
channels are already RGBA, so only the mode string changes. -/
def convert_rgba (img : PImage) : PImage :=
  { img with mode := "RGBA" }

/-- Per-edge trim amounts (`detector.EdgeTrims`). -/
structure EdgeTrims where
  left : ℤ
  right : ℤ
  top : ℤ
  bottom : ℤ

/-- Detected content bounding box (`detector.ContentBounds`). -/
structure ContentBounds where
  left : ℤ
  top : ℤ
  right : ℤ
  bottom : ℤ

/-- Computed per-edge inset values (`balance.BalancedInsets`). -/
structure BalancedInsets where
  left : ℤ
  right : ℤ
  top : ℤ
  bottom : ℤ

/-- The three detector functions of `detector.py`, taken as parameters of the
embedding (their internals sample pixels through PIL filter semantics; every
claim below is proved for arbitrary detector outputs). -/
structure Detectors where
  detect_edge_background : PImage → EdgeTrims
  detect_content_saliency : PImage → Option ContentBounds
  detect_window_transparency : PImage → EdgeTrims

/-- Steps 1 and 1b of `compute_balanced_insets`: edge-background trims, merged
with transparency trims (per-edge maximum) for RGBA window captures. -/
def edge_trims_of (d : Detectors) (img : PImage) (is_window_capture : Bool) :
    EdgeTrims :=
  let et := d.detect_edge_background img
  if is_window_capture = true ∧ img.mode = "RGBA" then
    let tt := d.detect_window_transparency img
    ⟨max et.left tt.left, max et.right tt.right,
     max et.top tt.top, max et.bottom tt.bottom⟩
  else et

/-- Step 2 of `compute_balanced_insets`: detected content bounds, or the
edge-trim-derived fallback box when saliency detection returns none. -/
def content_bounds_of (d : Detectors) (img : PImage) (is_window_capture : Bool) :
    ContentBounds :=
  match d.detect_content_saliency img with
  | some cb => cb
  | none =>
    let et := edge_trims_of d img is_window_capture
    ⟨et.left, et.top, (img.width : ℤ) - et.right, (img.height : ℤ) - et.bottom⟩

/-- `balance.compute_balanced_insets(image, strength, is_window_capture,
margin, upward_bias)`. Steps 3-5: clamp the edge trims to the safe values
derived from the content bounds, re-center aesthetically, scale by strength. -/
def compute_balanced_insets (d : Detectors) (img : PImage) (strength : ℚ)
    (is_window_capture : Bool) (margin : ℤ) (upward_bias : ℚ) :
    BalancedInsets :=
  let w : ℤ := img.width
  let h : ℤ := img.height
  let cb := content_bounds_of d img is_window_capture
  let et := edge_trims_of d img is_window_capture
  let safe_left := max 0 (cb.left - margin)
  let safe_right := max 0 (w - cb.right - margin)
  let safe_top := max 0 (cb.top - margin)
  let safe_bottom := max 0 (h - cb.bottom - margin)
  let left_trim := min et.left safe_left
  let right_trim := min et.right safe_right
  let top_trim := min et.top safe_top
  let bottom_trim := min et.bottom safe_bottom
  let cx : ℚ := ((cb.left : ℚ) + (cb.right : ℚ)) / 2
  let cy : ℚ := ((cb.top : ℚ) + (cb.bottom : ℚ)) / 2
  let tx : ℚ := (w : ℚ) / 2
  let ty : ℚ := (h : ℚ) / 2 * (1 - upward_bias)
  let offset_x := cx - tx
  let offset_y := cy - ty
  let lr : ℤ × ℤ :=
    if 0 < offset_x then
      let extra_right := min (py_int (offset_x * (1/2))) (safe_right - right_trim)
      (left_trim, right_trim + max 0 extra_right)
    else
      let extra_left := min (py_int (-offset_x * (1/2))) (safe_left - left_trim)
      (left_trim + max 0 extra_left, right_trim)
  let tb : ℤ × ℤ :=
    if 0 < offset_y then
      let extra_bottom := min (py_int (offset_y * (1/2))) (safe_bottom - bottom_trim)
      (top_trim, bottom_trim + max 0 extra_bottom)
    else
      let extra_top := min (py_int (-offset_y * (1/2))) (safe_top - top_trim)
      (top_trim + max 0 extra_top, bottom_trim)
  ⟨py_int (lr.1 * strength), py_int (lr.2 * strength),
   py_int (tb.1 * strength), py_int (tb.2 * strength)⟩

/-- `balance.compute_manual_insets(inset_px)`: the same value on all edges. -/
def compute_manual_insets (inset_px : ℤ) : BalancedInsets :=
  ⟨inset_px, inset_px, inset_px, inset_px⟩

/-- The proportional-scaling block of `apply_insets`, done once per axis:
when the combined insets exceed the cap, scale both by `cap / total`
(Python raises `ZeroDivisionError` — modelled as `none` — when the total is
zero yet still greater than a negative cap, which happens exactly on images
smaller than the minimum retained size). -/
def scale_pair (a b cap : ℤ) : Option (ℤ × ℤ) :=
  if cap < a + b then
    if a + b = 0 then none
    else
      let scale : ℚ := (cap : ℚ) / ((a + b : ℤ) : ℚ)
      some (py_int ((a : ℚ) * scale), py_int ((b : ℚ) * scale))
  else some (a, b)

/-- The crop box computed by `balance.apply_insets` (lines 181-217) from the
image size and the requested insets; `none` models the `ZeroDivisionError`
raise inside the scaling block. -/
def apply_insets_box (w h : ℕ) (insets : BalancedInsets) :
    Option (ℤ × ℤ × ℤ × ℤ) := do
  let min_w : ℤ := max 50 ((w : ℤ) / 10)
  let min_h : ℤ := max 50 ((h : ℤ) / 10)
  let max_horizontal : ℤ := (w : ℤ) - min_w
  let max_vertical : ℤ := (h : ℤ) - min_h
  let left : ℤ := max 0 insets.left
  let right : ℤ := max 0 insets.right
  let top : ℤ := max 0 insets.top
  let bottom : ℤ := max 0 insets.bottom
  let (left, right) ← scale_pair left right max_horizontal
  let (top, bottom) ← scale_pair top bottom max_vertical
  let crop_left := left
  let crop_top := top
  let crop_right := max (crop_left + min_w) ((w : ℤ) - right)
  let crop_bottom := max (crop_top + min_h) ((h : ℤ) - bottom)
  some (crop_left, crop_top, crop_right, crop_bottom)

/-- `balance.apply_insets(image, insets)`: crop the image by the computed box. -/
def apply_insets (img : PImage) (insets : BalancedInsets) : Option PImage :=
  (apply_insets_box img.width img.height insets).map
    (fun bx => crop_image img bx.1 bx.2.1 bx.2.2.1 bx.2.2.2)

/-- A plain nested key/value structure (the persisted-preset JSON shape). -/
inductive Value where
  | vNull : Value
  | vBool : Bool → Value
  | vInt : ℤ → Value
  | vNum : ℚ → Value
  | vStr : String → Value
  | vList : List Value → Value
  | vDict : List (String × Value) → Value

/-- Python `d[k]` / `d.get(k)` on a dict with distinct keys (first match). -/
def dict_get (d : List (String × Value)) (k : String) : Option Value :=
  match d with
  | [] => none
  | (k2, v) :: rest => if k2 = k then some v else dict_get rest k

/-- One shadow layer (`composition.ShadowLayer`), field defaults included. -/
structure ShadowLayer where
  blur : ℚ := 28
  spread : ℚ := -8
  offset_y : ℚ := 18
  opacity : ℚ := 18/100

/-- The default shadow layer list built by the `ShadowConfig` factory. -/
def default_shadow_layers : List ShadowLayer :=
  [⟨28, -8, 18, 18/100⟩, ⟨10, -4, 6, 12/100⟩]

/-- Shadow configuration (`composition.ShadowConfig`). -/
structure ShadowConfig where
  strength : ℚ := 55/100
  layers : List ShadowLayer := default_shadow_layers

/-- The default `balanced_insets_px` dict `{"l": 0, "r": 0, "t": 0, "b": 0}`. -/
def default_balanced_insets_px : Value :=
  .vDict [("l", .vInt 0), ("r", .vInt 0), ("t", .vInt 0), ("b", .vInt 0)]

/-- Inset configuration (`composition.InsetConfig`); `balanced_insets_px` holds
the raw dict value exactly as the Python attribute does. -/
structure InsetConfig where
  mode : String := "balance"
  strength : ℚ := 65/100
  manual_px : ℤ := 24
  balanced_insets_px : Value := default_balanced_insets_px

/-- Background configuration (`composition.BackgroundConfig`). -/
structure BackgroundConfig where
  type : String := "preset"
  preset_id : String := "slate"
  image_path : Option String := none

/-- Output configuration (`composition.OutputConfig`). The source stores
`ratio` and `size_px` as tuples; tuples of any length can be stored (for
example a persisted 3-element `ratio` loads fine and only fails later when
unpacked), so both are lists here. The source field `ratio` is renamed
`ratio_wh` in this file. -/
structure OutputConfig where
  mode : String := "autoRatio"
  ratio_wh : List ℤ := [16, 9]
  size_px : List ℤ := [1920, 1080]
  platform : Option String := none

/-- Complete composition state (`composition.CompositionState`). -/
structure CompositionState where
  padding_px : ℤ := 120
  inset : InsetConfig := {}
  radius_px : ℤ := 18
  shadow : ShadowConfig := {}
  background : BackgroundConfig := {}
  output : OutputConfig := {}

/-- The state built by the bare `CompositionState()` constructor. -/
def default_composition_state : CompositionState := {}

/-- `BalancedInsets.as_dict`: `{'l': left, 'r': right, 't': top, 'b': bottom}`. -/
def balanced_insets_as_dict (b : BalancedInsets) : Value :=
  .vDict [("l", .vInt b.left), ("r", .vInt b.right),
          ("t", .vInt b.top), ("b", .vInt b.bottom)]

/-- Read a persisted value as a Python int. -/
def as_int : Value → Option ℤ
  | .vInt n => some n
  | _ => none

/-- Read a persisted value as a Python number (int or float). -/
def as_num : Value → Option ℚ
  | .vInt n => some (n : ℚ)
  | .vNum q => some q
  | _ => none

/-- Read a persisted value as a string. -/
def as_str : Value → Option String
  | .vStr s => some s
  | _ => none

/-- Read a persisted value as `Optional[str]` (None allowed). -/
def as_opt_str : Value → Option (Option String)
  | .vStr s => some (some s)
  | .vNull => some none
  | _ => none

/-- Read a persisted value as a list of ints (`tuple(...)` of a well-typed
persisted pair). -/
def as_int_list : Value → Option (List ℤ)
  | .vList xs => xs.mapM as_int
  | _ => none

/-- Read a persisted value as a list of values. -/
def as_value_list : Value → Option (List Value)
  | .vList xs => some xs
  | _ => none

/-- The keyword names accepted by the `ShadowLayer` dataclass constructor. -/
def shadow_layer_keys : List String := ["blur", "spread", "offset_y", "opacity"]

/-- `ShadowLayer(**layer)`: missing keys take the dataclass defaults, and any
key outside the four dataclass fields raises `TypeError` (unexpected keyword
argument), modelled as `none`. -/
def make_shadow_layer (v : Value) : Option ShadowLayer := do
  let d ← match v with | .vDict d => some d | _ => none
  if d.all (fun kv => kv.1 ∈ shadow_layer_keys) then
    let blur ← match dict_get d "blur" with
      | none => some (28 : ℚ) | some x => as_num x
    let spread ← match dict_get d "spread" with
      | none => some (-8 : ℚ) | some x => as_num x
    let offset_y ← match dict_get d "offset_y" with
      | none => some (18 : ℚ) | some x => as_num x
    let opacity ← match dict_get d "opacity" with
      | none => some (18/100 : ℚ) | some x => as_num x
    some ⟨blur, spread, offset_y, opacity⟩
  else none

/-- The `inset` block of `CompositionState.from_dict`: each known key read
with its default, the raw `balanced_insets_px` value stored unchecked. -/
def inset_section (d : List (String × Value)) : Option InsetConfig := do
  let mode ← match dict_get d "mode" with
    | none => some "balance" | some x => as_str x
  let strength ← match dict_get d "strength" with
    | none => some (65/100 : ℚ) | some x => as_num x
  let manual_px ← match dict_get d "manual_px" with
    | none => some (24 : ℤ) | some x => as_int x
  let bal := (dict_get d "balanced_insets_px").getD default_balanced_insets_px
  some ⟨mode, strength, manual_px, bal⟩

/-- The `shadow` block of `CompositionState.from_dict`: rebuild each layer
through the `ShadowLayer` constructor (an unknown key in a layer raises), and
fall back to the default layer list when the rebuilt list is empty. -/
def shadow_section (d : List (String × Value)) : Option ShadowConfig := do
  let layer_values ← match dict_get d "layers" with
    | none => some [] | some x => as_value_list x
  let layers ← layer_values.mapM make_shadow_layer
  let strength ← match dict_get d "strength" with
    | none => some (55/100 : ℚ) | some x => as_num x
  some ⟨strength, if layers.isEmpty then default_shadow_layers else layers⟩

/-- The `background` block of `CompositionState.from_dict`. -/
def background_section (d : List (String × Value)) : Option BackgroundConfig := do
  let ty ← match dict_get d "type" with
    | none => some "preset" | some x => as_str x
  let preset_id ← match dict_get d "preset_id" with
    | none => some "sky" | some x => as_str x
  let image_path ← match dict_get d "image_path" with
    | none => some none | some x => as_opt_str x
  some ⟨ty, preset_id, image_path⟩

/-- The `output` block of `CompositionState.from_dict`. -/
def output_section (d : List (String × Value)) : Option OutputConfig := do
  let mode ← match dict_get d "mode" with
    | none => some "autoRatio" | some x => as_str x
  let ratio_wh ← match dict_get d "ratio" with
    | none => some [(16 : ℤ), 9] | some x => as_int_list x
  let size_px ← match dict_get d "size_px" with
    | none => some [(1920 : ℤ), 1080] | some x => as_int_list x
  let platform ← match dict_get d "platform" with
    | none => some none | some x => as_opt_str x
  some ⟨mode, ratio_wh, size_px, platform⟩

/-- Reading one sub-dict section of the persisted structure: an absent key
keeps the constructor default, a dict is parsed by the section reader, and a
non-dict raises (the source immediately calls `.get` on it). -/
def read_section {A : Type} (f : List (String × Value) → Option A) (dflt : A) :
    Option Value → Option A
  | none => some dflt
  | some (.vDict d) => f d
  | some _ => none

/-- `CompositionState.from_dict(data)` (composition.py lines 70-116).

The source starts from `cls()` and overwrites each field whose key is
present; equivalently, each field is its constructor default unless its key
is present, in which case it is parsed — in source order, so the first
failing section raises. Unknown keys at the top level and inside the
`inset` / `shadow` / `background` / `output` sub-dicts are never looked at;
an unknown key inside one entry of `shadow.layers` raises (via
`ShadowLayer(**layer)`), modelled as `none`. Known keys are read at the shape
the source expects; Python stores an ill-typed scalar unchecked where this
typed model requires the documented shape, a divergence no claim exercises. -/
def composition_state_from_dict (data : List (String × Value)) :
    Option CompositionState := do
  let padding_px ← match dict_get data "padding_px" with
    | none => some (120 : ℤ) | some v => as_int v
  let radius_px ← match dict_get data "radius_px" with
    | none => some (18 : ℤ) | some v => as_int v
  let ic ← read_section inset_section {} (dict_get data "inset")
  let sc ← read_section shadow_section {} (dict_get data "shadow")
  let bc ← read_section background_section {} (dict_get data "background")
  let oc ← read_section output_section {} (dict_get data "output")
  some ⟨padding_px, ic, radius_px, sc, bc, oc⟩

/-- One entry of `BACKGROUND_PRESETS`: gradient kind, colors as 8-bit RGB
triples (pre-decoded from the source hex strings by `hex_to_rgb`), and the
angle (`preset.get('angle', 135)`); the unused display name and layer tag are
omitted. -/
structure BgPreset where
  kind : String
  colors : List (ℕ × ℕ × ℕ)
  angle : ℚ := 135

/-- The `sky` entry of `BACKGROUND_PRESETS` (the hard fallback). -/
def sky_preset : BgPreset := ⟨"linear", [(0x38, 0xBD, 0xF8), (0x63, 0x66, 0xF1)], 135⟩

/-- `composition.BACKGROUND_PRESETS`, with hex colors decoded. -/
def background_presets : List (String × BgPreset) :=
  [("black", ⟨"solid", [(0x00, 0x00, 0x00)], 135⟩),
   ("white", ⟨"solid", [(0xFF, 0xFF, 0xFF)], 135⟩),
   ("slate", ⟨"solid", [(0x37, 0x41, 0x51)], 135⟩),
   ("zinc", ⟨"solid", [(0x71, 0x71, 0x7A)], 135⟩),
   ("stone", ⟨"solid", [(0x78, 0x71, 0x6C)], 135⟩),
   ("navy", ⟨"solid", [(0x1E, 0x3A, 0x5F)], 135⟩),
   ("forest", ⟨"solid", [(0x14, 0x53, 0x2D)], 135⟩),
   ("wine", ⟨"solid", [(0x4C, 0x1D, 0x35)], 135⟩),
   ("mist", ⟨"linear", [(0xE5, 0xE7, 0xEB), (0xD1, 0xD5, 0xDB)], 180⟩),
   ("dusk", ⟨"linear", [(0x37, 0x41, 0x51), (0x1F, 0x29, 0x37)], 180⟩),
   ("ocean", ⟨"linear", [(0x1A, 0x40, 0x68), (0x0F, 0x20, 0x27)], 180⟩),
   ("moss", ⟨"linear", [(0x2D, 0x50, 0x16), (0x1A, 0x34, 0x09)], 180⟩),
   ("plum", ⟨"linear", [(0x4A, 0x15, 0x4B), (0x2D, 0x0A, 0x2E)], 180⟩),
   ("midnight", ⟨"linear", [(0x0F, 0x17, 0x2A), (0x02, 0x06, 0x17)], 180⟩),
   ("charcoal", ⟨"linear", [(0x27, 0x27, 0x2A), (0x18, 0x18, 0x1B)], 135⟩),
   ("smoke", ⟨"linear", [(0x44, 0x40, 0x3C), (0x29, 0x25, 0x24)], 135⟩),
   ("sunset", ⟨"linear", [(0xF9, 0x73, 0x16), (0xDC, 0x26, 0x26)], 135⟩),
   ("aurora", ⟨"linear", [(0x22, 0xD3, 0xEE), (0xA8, 0x55, 0xF7)], 135⟩),
   ("berry", ⟨"linear", [(0xEC, 0x48, 0x99), (0x8B, 0x5C, 0xF6)], 135⟩),
   ("lime", ⟨"linear", [(0x84, 0xCC, 0x16), (0x10, 0xB9, 0x81)], 135⟩),
   ("sky", sky_preset),
   ("fire", ⟨"radial", [(0xFB, 0xBF, 0x24), (0xDC, 0x26, 0x26)], 135⟩),
   ("neon", ⟨"linear", [(0xF4, 0x3F, 0x5E), (0x8B, 0x5C, 0xF6), (0x3B, 0x82, 0xF6)], 135⟩),
   ("tropical", ⟨"linear", [(0x14, 0xB8, 0xA6), (0xFB, 0xBF, 0x24)], 135⟩)]

/-- Lookup in `background_presets`. -/
def bg_preset_get (d : List (String × BgPreset)) (k : String) : Option BgPreset :=
  match d with
  | [] => none
  | (k2, v) :: rest => if k2 = k then some v else bg_preset_get rest k

/-- `composition.PLATFORM_PRESETS`: named width x height pairs. -/
def platform_presets : List (String × (ℤ × ℤ)) :=
  [("twitter", (1200, 675)), ("facebook", (1200, 630)),
   ("instagram", (1080, 1080)), ("linkedin", (1200, 627)),
   ("youtube", (1280, 720)), ("pinterest", (1000, 1500)),
   ("reddit", (1200, 628)), ("snapchat", (1080, 1920))]

/-- Lookup in `platform_presets`. -/
def platform_get (d : List (String × (ℤ × ℤ))) (k : String) : Option (ℤ × ℤ) :=
  match d with
  | [] => none
  | (k2, v) :: rest => if k2 = k then some v else platform_get rest k

/-- `renderer.hex_to_rgb` after hex decoding: scale 8-bit channels to [0,1]. -/
def rgb8 (c : ℕ × ℕ × ℕ) : Color3 :=
  ((c.1 : ℚ) / 255, (c.2.1 : ℚ) / 255, (c.2.2 : ℚ) / 255)

/-- The pixel-level raster primitives the renderer delegates to PIL and cairo,
plus the detector bundle and the real-valued math functions (`math.radians`,
`math.cos`, `math.sin`, `math.sqrt`). Matching cairo/PIL semantics, an
operation on a surface transforms its pixel content and never its size, so
every primitive here produces a `PixMap` while the embedding itself carries
the sizes. -/
structure RenderPrims where
  det : Detectors
  radians : ℚ → ℚ
  cos : ℚ → ℚ
  sin : ℚ → ℚ
  sqrt : ℚ → ℚ
  paint_solid : ℕ → ℕ → Color3 → PixMap → PixMap
  paint_linear : ℕ → ℕ → (ℚ × ℚ) → (ℚ × ℚ) → Color3 → Color3 → PixMap → PixMap
  paint_radial : ℕ → ℕ → (ℚ × ℚ) → ℚ → Color3 → Color3 → PixMap → PixMap
  resize_px : PImage → ℕ → ℕ → PixMap
  gaussian_blur_px : PImage → ℚ → PixMap
  raster_rounded_rect : ℕ → ℕ → (ℚ × ℚ × ℚ × ℚ) → ℚ → PixMap → PixMap
  composite_at : PImage → PImage → ℚ → ℚ → PixMap
  clip_rounded_paint : PImage → PImage → ℚ → ℚ → ℚ → ℚ → ℚ → PixMap

/-- A fresh cairo ARGB32 surface: fully transparent (all-zero) pixels. -/
def new_canvas (w h : ℕ) : PImage :=
  ⟨w, h, "RGBA", fun _ _ => (0, 0, 0, 0)⟩

/-- PIL `image.resize((w, h))` with a raster-primitive resampler; the result
has exactly the requested size. -/
def resize_image (P : RenderPrims) (img : PImage) (w h : ℕ) : PImage :=
  ⟨w, h, img.mode, P.resize_px img w h⟩

/-- The filesystem as seen by `Image.open`: `none` models any decode failure. -/
abbrev FileSys : Type := String → Option PImage

/-- `CompositionRenderer.compute_output_size` (renderer.py lines 314-354).
Returns the computed size as the source does — for `fixedSize` that is the
stored `size_px` tuple of whatever length, so the result is a list that the
caller unpacks. `none` models the raises inside the `fixedRatio` branch
(tuple unpack of a non-pair `ratio`, and `ZeroDivisionError` on a degenerate
ratio or a zero-height input). -/
def compute_output_size (out : OutputConfig) (padding_px : ℤ) (img : PImage) :
    Option (List ℤ) :=
  if out.mode = "fixedSize" then
    some out.size_px
  else if out.mode = "platform" then
    match out.platform with
    | some p =>
      if p ≠ "" then
        match platform_get platform_presets p with
        | some wh => some [wh.1, wh.2]
        | none => some out.size_px
      else some out.size_px
    | none => some out.size_px
  else if out.mode = "fixedRatio" then
    match out.ratio_wh with
    | [ratio_w, ratio_h] =>
      if ratio_h = 0 then none
      else if (img.height : ℤ) = 0 then none
      else
        let target_ratio : ℚ := (ratio_w : ℚ) / (ratio_h : ℚ)
        let current_ratio : ℚ := (img.width : ℚ) / (img.height : ℚ)
        if target_ratio < current_ratio then
          if ratio_w = 0 then none
          else
            let out_w : ℤ := (img.width : ℤ) + padding_px * 2
            some [out_w, py_int ((out_w : ℚ) / target_ratio)]
        else
          let out_h : ℤ := (img.height : ℤ) + padding_px * 2
          some [py_int ((out_h : ℚ) * target_ratio), out_h]
    | _ => none
  else
    some [(img.width : ℤ) + padding_px * 2, (img.height : ℤ) + padding_px * 2]

/-- `renderer.render_gradient_background`: preset lookup with `sky` fallback,
then a solid fill, an angled linear gradient spanning the canvas diagonal, or
a center-out radial gradient; an unknown gradient kind paints nothing. -/
def render_gradient_background (P : RenderPrims) (canvas : PImage)
    (w h : ℤ) (preset_id : String) : PImage :=
  let preset := (bg_preset_get background_presets preset_id).getD sky_preset
  let c0 := rgb8 (preset.colors.headD (0, 0, 0))
  let c1 := rgb8 ((preset.colors.drop 1).headD (preset.colors.headD (0, 0, 0)))
  if preset.kind = "solid" then
    { canvas with px := P.paint_solid canvas.width canvas.height c0 canvas.px }
  else if preset.kind = "linear" then
    let angle := P.radians preset.angle
    let cx : ℚ := (w : ℚ) / 2
    let cy : ℚ := (h : ℚ) / 2
    let len := P.sqrt ((w : ℚ) ^ 2 + (h : ℚ) ^ 2)
    let dx := P.cos angle * len / 2
    let dy := P.sin angle * len / 2
    let px2 := P.paint_linear canvas.width canvas.height
      (cx - dx, cy - dy) (cx + dx, cy + dy) c0 c1 canvas.px
    { canvas with px := px2 }
  else if preset.kind = "radial" then
    let cx : ℚ := (w : ℚ) / 2
    let cy : ℚ := (h : ℚ) / 2
    let radius : ℚ := (max w h : ℤ) * (7/10)
    let px2 := P.paint_radial canvas.width canvas.height
      (cx, cy) radius c0 c1 canvas.px
    { canvas with px := px2 }
  else canvas

/-- The fixed dark-gray fallback fill of `render_image_background`. -/
def paint_fallback_gray (P : RenderPrims) (canvas : PImage) : PImage :=
  let px2 := P.paint_solid canvas.width canvas.height (2/10, 2/10, 22/100) canvas.px
  { canvas with px := px2 }

/-- `renderer.render_image_background`: cover-fill an external image onto the
canvas; every failure inside the `try` block (decode failure, zero-size
background, degenerate resize) is caught and falls back to the solid
dark-gray fill. -/
def render_image_background (P : RenderPrims) (fs : FileSys) (canvas : PImage)
    (w h : ℤ) (image_path : String) : PImage :=
  match fs image_path with
  | none => paint_fallback_gray P canvas
  | some bg0 =>
    let bg := convert_rgba bg0
    if bg.width = 0 ∨ bg.height = 0 then paint_fallback_gray P canvas
    else
      let scale : ℚ := max ((w : ℚ) / (bg.width : ℚ)) ((h : ℚ) / (bg.height : ℚ))
      let new_w := py_int ((bg.width : ℚ) * scale)
      let new_h := py_int ((bg.height : ℚ) * scale)
      if new_w ≤ 0 ∨ new_h ≤ 0 then paint_fallback_gray P canvas
      else
        let bg_resized := resize_image P bg new_w.toNat new_h.toNat
        let left : ℤ := (new_w - w) / 2
        let top : ℤ := (new_h - h) / 2
        let bg_cropped := crop_image bg_resized left top (left + w) (top + h)
        { canvas with px := P.composite_at canvas bg_cropped 0 0 }

/-- PIL `a.point(lambda p: int(p * opacity))` applied to the alpha band of an
RGBA image (`render_shadow` step 3), defined concretely pointwise. -/
def scale_alpha (img : PImage) (opacity : ℚ) : PImage :=
  { img with px := fun x y =>
      let p := img.px x y
      (p.1, p.2.1, p.2.2.1, (py_int ((p.2.2.2 : ℚ) * opacity)).toNat) }

/-- One iteration of the layer loop in `renderer.render_shadow`: build the
blurred opacity-scaled mask for the layer (recomputed around the centered
spread-adjusted rectangle when the effective spread is nonzero) and composite
it onto the canvas. `none` models PIL raising on a degenerate (negative-size)
mask or a negative blur radius; a non-positive spread-adjusted shape size
hits the source's `continue` and leaves the canvas unchanged. -/
def render_shadow_layer (P : RenderPrims) (strength : ℚ)
    (x y width height radius : ℚ) (cv : PImage) (layer : ShadowLayer) :
    Option PImage :=
  let opacity := layer.opacity * strength
  let scale_factor : ℚ := 8/10 + strength * (6/10)
  let current_blur := layer.blur * scale_factor
  let current_offset_y := layer.offset_y * scale_factor
  let current_spread := layer.spread * scale_factor
  if opacity ≤ 1/100 then some cv
  else
    let blur_radius := current_blur
    let padding := py_int (blur_radius * 2)
    let mask_w := py_int (width + (padding : ℚ) * 2)
    let mask_h := py_int (height + (padding : ℚ) * 2)
    if mask_w < 0 ∨ mask_h < 0 ∨ width < 0 ∨ height < 0 ∨ blur_radius < 0 then
      none
    else
      let mask1 := PImage.mk mask_w.toNat mask_h.toNat "RGBA"
        (P.raster_rounded_rect mask_w.toNat mask_h.toNat
          ((padding : ℚ), (padding : ℚ), (padding : ℚ) + width, (padding : ℚ) + height)
          radius (new_canvas mask_w.toNat mask_h.toNat).px)
      let blurred1 := PImage.mk mask1.width mask1.height "RGBA"
        (P.gaussian_blur_px mask1 (blur_radius / 2))
      let blurred1 := if opacity < 1 then scale_alpha blurred1 opacity else blurred1
      let dest_x := x + current_spread - (padding : ℚ)
      let dest_y := y + current_spread + current_offset_y - (padding : ℚ)
      if current_spread ≠ 0 then
        let spread_w := width + current_spread * 2
        let spread_h := height + current_spread * 2
        if spread_w ≤ 0 ∨ spread_h ≤ 0 then some cv
        else
          let center_x : ℚ := (mask_w : ℚ) / 2
          let center_y : ℚ := (mask_h : ℚ) / 2
          let mask2 := PImage.mk mask_w.toNat mask_h.toNat "RGBA"
            (P.raster_rounded_rect mask_w.toNat mask_h.toNat
              (center_x - spread_w / 2, center_y - spread_h / 2,
               center_x + spread_w / 2, center_y + spread_h / 2)
              (max 0 (radius + current_spread))
              (new_canvas mask_w.toNat mask_h.toNat).px)
          let blurred2 := PImage.mk mask2.width mask2.height "RGBA"
            (P.gaussian_blur_px mask2 (blur_radius / 2))
          let blurred2 :=
            if opacity < 1 then scale_alpha blurred2 opacity else blurred2
          some { cv with px := P.composite_at cv blurred2 dest_x dest_y }
      else
        some { cv with px := P.composite_at cv blurred1 dest_x dest_y }

/-- `renderer.render_shadow`: nothing at non-positive strength, otherwise the
layers composited in list order (first layer bottom-most). -/
def render_shadow (P : RenderPrims) (canvas : PImage)
    (x y width height radius : ℚ) (shadow : ShadowConfig) : Option PImage :=
  if shadow.strength ≤ 0 then some canvas
  else shadow.layers.foldlM (render_shadow_layer P shadow.strength x y width height radius) canvas

/-- `renderer.render_card`: resize the card to the draw size (PIL raises on a
negative target, modelled as `none`), clip to the rounded rectangle — whose
radius `create_rounded_rect_path` clamps to half the smaller draw dimension —
and composite onto the canvas. -/
def render_card (P : RenderPrims) (canvas card : PImage)
    (x y width height radius : ℚ) : Option PImage :=
  if py_int width < 0 ∨ py_int height < 0 then none
  else
    let card_resized := resize_image P card (py_int width).toNat (py_int height).toNat
    let eff_radius := if min width height / 2 < radius then min width height / 2 else radius
    some { canvas with px := P.clip_rounded_paint canvas card_resized x y width height eff_radius }

/-- The shadow-margin computation of `CompositionRenderer.render` (renderer.py
lines 381-397): per-layer outward extents scaled by strength plus the fixed
8 px safety pad, separately for the base margin and the bottom margin, then
their maximum; all zero when shadow strength is not positive. -/
def shadow_margin_of (shadow : ShadowConfig) : ℤ :=
  if 0 < shadow.strength then
    let bases := shadow.layers.foldl
      (fun (acc : ℚ × ℚ) l =>
        let base := l.blur / 2 + max 0 (-l.spread)
        (max acc.1 base, max acc.2 (base + l.offset_y)))
      (0, 0)
    let base_margin := py_int (bases.1 * shadow.strength) + 8
    let bottom_margin := py_int (bases.2 * shadow.strength) + 8
    max base_margin bottom_margin
  else 0

/-- The effective padding of `CompositionRenderer.render`: at least the
shadow margin. -/
def effective_padding_of (padding_px : ℤ) (shadow : ShadowConfig) : ℤ :=
  max padding_px (shadow_margin_of shadow)

/-- The insets selected by step 1 of `CompositionRenderer.render`: balanced
insets at the configured strength in balance mode (window-capture flag false,
margin 16, upward bias 0.05 — the `compute_balanced_insets` defaults), else
uniform manual insets. -/
def insets_for (d : Detectors) (ic : InsetConfig) (img : PImage) : BalancedInsets :=
  if ic.mode = "balance" then
    compute_balanced_insets d img ic.strength false 16 (5/100)
  else compute_manual_insets ic.manual_px

/-- Step 5 of `CompositionRenderer.render`: pick the background painter —
preset gradient, cover-filled image when the type is `image` and a path is
set (Python truthiness: absent or empty paths fall through), else the `sky`
gradient. -/
def render_background (P : RenderPrims) (fs : FileSys) (canvas : PImage)
    (bg : BackgroundConfig) (w h : ℤ) : PImage :=
  if bg.type = "preset" then
    render_gradient_background P canvas w h bg.preset_id
  else
    match bg.image_path with
    | some pth =>
      if bg.type = "image" ∧ pth ≠ "" then
        render_image_background P fs canvas w h pth
      else render_gradient_background P canvas w h "sky"
    | none => render_gradient_background P canvas w h "sky"

/-- Steps 2-8 of `CompositionRenderer.render`, after the inset choice: crop
the card, size the canvas, paint background, shadow and card. The state is
passed as its individual fields; `none` models any raise (inset crop failure,
`fixedRatio` arithmetic, a tuple unpack of a malformed output size, negative
canvas dimensions rejected by cairo, or a PIL raise inside shadow/card
drawing). The final cairo-to-PIL conversion is byte-exact, so it is the
identity here. -/
def render_image (P : RenderPrims) (fs : FileSys) (padding_px radius_px : ℤ)
    (shadow : ShadowConfig) (bg : BackgroundConfig) (out : OutputConfig)
    (insets : BalancedInsets) (img : PImage) : Option PImage := do
  let card ← apply_insets img insets
  let card_w : ℤ := card.width
  let card_h : ℤ := card.height
  let size_list ← compute_output_size out padding_px img
  let (out_w0, out_h0) ← match size_list with
    | [a, b] => some (a, b)
    | _ => none
  let effective_padding := effective_padding_of padding_px shadow
  let wh : ℤ × ℤ :=
    if padding_px < effective_padding then
      (card_w + effective_padding * 2, card_h + effective_padding * 2)
    else (out_w0, out_h0)
  if wh.1 < 0 ∨ wh.2 < 0 then none
  else
    let canvas := new_canvas wh.1.toNat wh.2.toNat
    let canvas := render_background P fs canvas bg wh.1 wh.2
    let available_w : ℤ := wh.1 - effective_padding * 2
    let available_h : ℤ := wh.2 - effective_padding * 2
    let scale : ℚ := min ((available_w : ℚ) / (card_w : ℚ)) ((available_h : ℚ) / (card_h : ℚ))
    let draw_w : ℚ := (card_w : ℚ) * scale
    let draw_h : ℚ := (card_h : ℚ) * scale
    let draw_x : ℚ := ((wh.1 : ℚ) - draw_w) / 2
    let draw_y : ℚ := ((wh.2 : ℚ) - draw_h) / 2
    let canvas ← render_shadow P canvas draw_x draw_y draw_w draw_h (radius_px : ℚ) shadow
    let canvas ← render_card P canvas card draw_x draw_y draw_w draw_h (radius_px : ℚ)
    some canvas

/-- The in-place write `inset_config.balanced_insets_px = insets.as_dict()`
performed by step 1 of `CompositionRenderer.render` in balance mode. -/
def set_balanced_cache (st : CompositionState) (v : Value) : CompositionState :=
  { st with inset := { st.inset with balanced_insets_px := v } }

/-- `CompositionRenderer.render` as a function of the renderer's two inputs:
produces the output image (or `none` for a raise) together with the state as
it stands after the call — identical to the input state except for the
balanced-insets write-back in balance mode, which happens before any later
failure point. -/
def render_full (P : RenderPrims) (fs : FileSys) (st : CompositionState)
    (img : PImage) : Option PImage × CompositionState :=
  let insets := insets_for P.det st.inset img
  let st2 :=
    if st.inset.mode = "balance" then
      set_balanced_cache st (balanced_insets_as_dict insets)
    else st
  (render_image P fs st.padding_px st.radius_px st.shadow st.background
    st.output insets img, st2)

/-- The size of the rendered output, when rendering succeeds. -/
def render_size (P : RenderPrims) (fs : FileSys) (st : CompositionState)
    (img : PImage) : Option (ℕ × ℕ) :=
  (render_full P fs st img).1.map (fun o => (o.width, o.height))

/-- The coordinates of the pixels whose alpha exceeds the threshold, in row
scan order (the nonzero region of `alpha.point(lambda p: 255 if p > thr
else 0)`). -/
def over_threshold_cells (img : PImage) (thr : ℕ) : List (ℕ × ℕ) :=
  (List.range img.height).flatMap (fun y =>
    (List.range img.width).filterMap (fun x =>
      if thr < (img.px x y).2.2.2 then some (x, y) else none))

/-- PIL `mask.getbbox()` for the alpha-threshold mask: the bounding box
`(min x, min y, max x + 1, max y + 1)` of the pixels above threshold, or
`none` when there are none (right/lower bounds exclusive, as in PIL). -/
def alpha_bbox (img : PImage) (thr : ℕ) : Option (ℕ × ℕ × ℕ × ℕ) :=
  match over_threshold_cells img thr with
  | [] => none
  | c :: cs =>
    some ((c :: cs).foldl (fun a p => min a p.1) c.1,
          (c :: cs).foldl (fun a p => min a p.2) c.2,
          (c :: cs).foldl (fun a p => max a p.1) c.1 + 1,
          (c :: cs).foldl (fun a p => max a p.2) c.2 + 1)

/-- `CompositionPipeline._strip_transparent_borders` (pipeline.py lines
25-68): convert to RGBA; crop to the alpha>250 box when that box is strictly
larger than 50 px in both dimensions; otherwise crop to the alpha>50 box
expanded by 1 px and clamped to the image; otherwise return unchanged. -/
def strip_transparent_borders (img0 : PImage) : PImage :=
  let img := if img0.mode ≠ "RGBA" then convert_rgba img0 else img0
  let tier2 : PImage :=
    match alpha_bbox img 50 with
    | some (l, t, r, b) =>
      crop_image img (max 0 ((l : ℤ) - 1)) (max 0 ((t : ℤ) - 1))
        (min (img.width : ℤ) ((r : ℤ) + 1)) (min (img.height : ℤ) ((b : ℤ) + 1))
    | none => img
  match alpha_bbox img 250 with
  | some (l, t, r, b) =>
    if 50 < r - l ∧ 50 < b - t then crop_image img l t r b else tier2
  | none => tier2

/-- The mutable session state of `CompositionPipeline`. -/
structure CompositionPipeline where
  input_image : Option PImage := none
  input_path : Option String := none
  state : CompositionState := default_composition_state
  cached_result : Option PImage := none
  cache_valid : Bool := false

/-- `CompositionPipeline.load_image(path)`: decode (any failure inside the
`try` returns `False` with every pipeline attribute untouched), convert to
RGBA, strip transparent borders, store image and path, invalidate the cache. -/
def load_image (fs : FileSys) (path : String) (p : CompositionPipeline) :
    Bool × CompositionPipeline :=
  match fs path with
  | none => (false, p)
  | some decoded =>
    let image := if decoded.mode ≠ "RGBA" then convert_rgba decoded else decoded
    (true, { p with
      input_image := some (strip_transparent_borders image),
      input_path := some path,
      cache_valid := false })

/-- `CompositionPipeline.set_image(image)`: strip borders, store, clear the
path, invalidate the cache. -/
def set_image (image : PImage) (p : CompositionPipeline) : CompositionPipeline :=
  { p with
    input_image := some (strip_transparent_borders image),
    input_path := none,
    cache_valid := false }

/-- A well-typed value for one keyword argument of `update_state`. Python
performs no validation on `setattr`, so an ill-typed value for a known field
would be stored as-is; such calls are outside every claim and are not
representable in this typed model. -/
inductive StateFieldValue where
  | intV : ℤ → StateFieldValue
  | insetV : InsetConfig → StateFieldValue
  | shadowV : ShadowConfig → StateFieldValue
  | backgroundV : BackgroundConfig → StateFieldValue
  | outputV : OutputConfig → StateFieldValue

/-- The `hasattr`/`setattr` step for a single keyword argument of
`update_state`: the six dataclass fields are assignable; any other name
(`hasattr` is false for names that are no attribute of `CompositionState`)
leaves the state untouched. The class also exposes method attributes
(`to_dict`, `from_dict`): assigning those would shadow a method on the
instance without touching any dataclass field, which this state model has no
slot for — no claim exercises it. -/
def set_state_field (s : CompositionState) (k : String) (v : StateFieldValue) :
    CompositionState :=
  if k = "padding_px" then
    match v with | .intV n => { s with padding_px := n } | _ => s
  else if k = "inset" then
    match v with | .insetV c => { s with inset := c } | _ => s
  else if k = "radius_px" then
    match v with | .intV n => { s with radius_px := n } | _ => s
  else if k = "shadow" then
    match v with | .shadowV c => { s with shadow := c } | _ => s
  else if k = "background" then
    match v with | .backgroundV c => { s with background := c } | _ => s
  else if k = "output" then
    match v with | .outputV c => { s with output := c } | _ => s
  else s

/-- `CompositionPipeline.update_state(**kwargs)` (pipeline.py lines 109-119):
apply each keyword in order through `hasattr`/`setattr`, then invalidate the
cache unconditionally. -/
def update_state (kwargs : List (String × StateFieldValue))
    (p : CompositionPipeline) : CompositionPipeline :=
  { p with
    state := kwargs.foldl (fun s kv => set_state_field s kv.1 kv.2) p.state,
    cache_valid := false }

/-- `CompositionPipeline.set_state(state)`: replace wholesale, invalidate. -/
def set_pipeline_state (st : CompositionState) (p : CompositionPipeline) :
    CompositionPipeline :=
  { p with state := st, cache_valid := false }

/-- `CompositionPipeline.render(force)`: `none` without an input image; the
cached result when the cache is valid, no force is requested and a result is
cached; otherwise re-render. A renderer raise (`none` from `render_full`)
propagates before the cache assignments run, but after the renderer's
in-place write-back into the state. -/
def pipeline_render (P : RenderPrims) (fs : FileSys) (force : Bool)
    (p : CompositionPipeline) : Option PImage × CompositionPipeline :=
  match p.input_image with
  | none => (none, p)
  | some img =>
    if p.cache_valid = true ∧ force = false ∧ p.cached_result.isSome then
      (p.cached_result, p)
    else
      match render_full P fs p.state img with
      | (some out, st2) =>
        (some out, { p with state := st2, cached_result := some out, cache_valid := true })
      | (none, st2) => (none, { p with state := st2 })

/-- Detectors that report no trims and no salient content, used to build
concrete witness scenarios (any detector bundle works for the theorems). -/
def const_detectors : Detectors :=
  ⟨fun _ => ⟨0, 0, 0, 0⟩, fun _ => none, fun _ => ⟨0, 0, 0, 0⟩⟩

/-- Detectors returning fixed nonzero results, for witness scenarios that
exercise the clamping path. -/
def boxy_detectors : Detectors :=
  ⟨fun _ => ⟨30, 30, 30, 30⟩, fun _ => some ⟨40, 40, 160, 160⟩, fun _ => ⟨5, 5, 5, 5⟩⟩

/-- Concrete raster primitives for witness scenarios: each operation keeps
the canvas content unchanged (any primitives work for the theorems). -/
def id_prims : RenderPrims where
  det := const_detectors
  radians := fun q => q
  cos := fun _ => 0
  sin := fun _ => 0
  sqrt := fun _ => 0
  paint_solid := fun _ _ _ pm => pm
  paint_linear := fun _ _ _ _ _ _ pm => pm
  paint_radial := fun _ _ _ _ _ _ pm => pm
  resize_px := fun img _ _ => img.px
  gaussian_blur_px := fun img _ => img.px
  raster_rounded_rect := fun _ _ _ _ pm => pm
  composite_at := fun cv _ _ _ => cv.px
  clip_rounded_paint := fun cv _ _ _ _ _ _ => cv.px

/-- An empty filesystem: every decode fails. -/
def no_fs : FileSys := fun _ => none

/-- A 200 x 200 coordinate-encoding RGBA test image (pixel value records its
own position, so crops are observable). -/
def coord_image_200 : PImage :=
  ⟨200, 200, "RGBA", fun x y => (x, y, 0, 255)⟩

/-- Scenario for claim C5: autoRatio output, manual insets of 10 px,
padding 100, shadow disabled. -/
def c5_state : CompositionState :=
  { padding_px := 100,
    inset := { mode := "manual", strength := 65/100, manual_px := 10,
               balanced_insets_px := default_balanced_insets_px },
    radius_px := 18,
    shadow := { strength := 0, layers := [] },
    background := { type := "preset", preset_id := "black", image_path := none },
    output := { mode := "autoRatio", ratio_wh := [16, 9],
                size_px := [1920, 1080], platform := none } }

/-- Scenario for claim C6: fixedSize 1920 x 1080 output, zero padding, an
active shadow whose margin exceeds the padding, manual insets of 0. -/
def c6_state : CompositionState :=
  { padding_px := 0,
    inset := { mode := "manual", strength := 65/100, manual_px := 0,
               balanced_insets_px := default_balanced_insets_px },
    radius_px := 18,
    shadow := { strength := 1, layers := [⟨0, 0, 0, 0⟩] },
    background := { type := "preset", preset_id := "black", image_path := none },
    output := { mode := "fixedSize", ratio_wh := [16, 9],
                size_px := [1920, 1080], platform := none } }

/-- A 52 x 52 RGBA image whose fully opaque region is exactly the 50 x 50
square with corners (1,1) and (50,50); everything else is fully transparent.
Its alpha>250 bounding box is exactly 50 px wide and 50 px tall. -/
def border50_image : PImage :=
  ⟨52, 52, "RGBA", fun x y =>
    if 1 ≤ x ∧ x ≤ 50 ∧ 1 ≤ y ∧ y ≤ 50 then (0, 0, 0, 255) else (0, 0, 0, 0)⟩

/-- A fully opaque 51 x 51 RGBA image (opaque box 51 x 51, strictly above the
50 px threshold on both axes). -/
def opaque51_image : PImage := solid_image 51 51 (0, 0, 0, 255)

/-- The persisted structure used against claim C7: well-formed except for one
unknown key inside a shadow layer entry. -/
def c7_bad_data : List (String × Value) :=
  [("shadow", .vDict
    [("layers", .vList [.vDict [("blur", .vInt 3), ("color", .vStr "red")]])])]

/-- The known top-level keys of the persisted composition structure. -/
def top_level_keys : List String :=
  ["padding_px", "radius_px", "inset", "shadow", "background", "output"]

/-- The keys `from_dict` reads inside the `inset` sub-dict. -/
def inset_section_keys : List String :=
  ["mode", "strength", "manual_px", "balanced_insets_px"]

/-- The keys `from_dict` reads inside the `shadow` sub-dict. -/
def shadow_section_keys : List String := ["strength", "layers"]

/-- The keys `from_dict` reads inside the `background` sub-dict. -/
def background_section_keys : List String := ["type", "preset_id", "image_path"]

/-- The keys `from_dict` reads inside the `output` sub-dict. -/
def output_section_keys : List String := ["mode", "ratio", "size_px", "platform"]

/-- The attribute names of `CompositionState` visible to `hasattr`: the six
dataclass fields and the two methods. -/
def composition_state_attrs : List String :=
  ["padding_px", "inset", "radius_px", "shadow", "background", "output",
   "to_dict", "from_dict"]

/-- `py_int` is truncation toward zero: floor on non-negatives, ceiling on
negatives. -/
theorem py_int_eq (q : ℚ) : py_int q = if 0 ≤ q then ⌊q⌋ else ⌈q⌉ := by
  unfold py_int
  rcases le_or_lt 0 q.num with h | h
  · rw [if_pos h, if_pos (by exact_mod_cast Rat.num_nonneg.mp h), Rat.floor_def]
  · rw [if_neg (not_le.mpr h), if_neg (by
      intro hq
      exact absurd (Rat.num_nonneg.mpr hq) (not_le.mpr h))]
    have hc : ⌈q⌉ = -⌊-q⌋ := by rw [Int.floor_neg, neg_neg]
    rw [hc, Rat.floor_def]
    congr 1

/-- `py_int` is the identity on integers. -/
@[simp] theorem py_int_intCast (n : ℤ) : py_int (n : ℚ) = n := by
  rw [py_int_eq]
  rcases le_or_lt 0 n with h | h
  · rw [if_pos (by exact_mod_cast h), Int.floor_intCast]
  · rw [if_neg (by exact_mod_cast not_le.mpr h), Int.ceil_intCast]

/-- `py_int` on a natural number cast. -/
@[simp] theorem py_int_natCast (n : ℕ) : py_int (n : ℚ) = n := by
  exact_mod_cast py_int_intCast (n : ℤ)

/-- `py_int` on numeric literals. -/
@[simp] theorem py_int_ofNat (n : ℕ) [n.AtLeastTwo] :
    py_int (no_index (OfNat.ofNat n) : ℚ) = OfNat.ofNat n := by
  exact_mod_cast py_int_intCast (OfNat.ofNat n : ℤ)

/-- `py_int` of zero. -/
@[simp] theorem py_int_zero : py_int 0 = 0 := by
  exact_mod_cast py_int_intCast 0

/-- `py_int` of one. -/
@[simp] theorem py_int_one : py_int 1 = 1 := by
  exact_mod_cast py_int_intCast 1

/-- Truncation toward zero never exceeds a non-negative integer bound that
dominates the argument. -/
theorem py_int_le_of_le {q : ℚ} {m : ℤ} (hq : q ≤ (m : ℚ)) (hm : 0 ≤ m) :
    py_int q ≤ m := by
  rw [py_int_eq]
  split
  · exact (Int.floor_le_floor hq).trans_eq (Int.floor_intCast m)
  · next h =>
    calc ⌈q⌉ ≤ ⌈(0 : ℚ)⌉ := Int.ceil_le_ceil (not_le.mp h).le
    _ = 0 := by simp
    _ ≤ m := hm

/-- Scaling an integer bounded by a non-negative integer by a strength in
`[0, 1]` and truncating stays within the bound. -/
theorem py_int_mul_strength_le {t m : ℤ} {s : ℚ} (h0 : 0 ≤ s) (h1 : s ≤ 1)
    (ht : t ≤ m) (hm : 0 ≤ m) : py_int ((t : ℚ) * s) ≤ m := by
  apply py_int_le_of_le _ hm
  rcases le_or_lt 0 t with h | h
  · calc (t : ℚ) * s ≤ (t : ℚ) * 1 :=
      mul_le_mul_of_nonneg_left h1 (by exact_mod_cast h)
    _ = (t : ℚ) := mul_one _
    _ ≤ (m : ℚ) := by exact_mod_cast ht
  · calc (t : ℚ) * s ≤ 0 :=
      mul_nonpos_of_nonpos_of_nonneg (by exact_mod_cast h.le) h0
    _ ≤ (m : ℚ) := by exact_mod_cast hm

/-- Painting a gradient background never changes the surface size. -/
theorem render_gradient_background_width (P : RenderPrims) (canvas : PImage)
    (w h : ℤ) (pid : String) :
    (render_gradient_background P canvas w h pid).width = canvas.width ∧
    (render_gradient_background P canvas w h pid).height = canvas.height := by
  unfold render_gradient_background
  dsimp only
  split_ifs <;> exact ⟨rfl, rfl⟩

/-- Painting an image background never changes the surface size. -/
theorem render_image_background_width (P : RenderPrims) (fs : FileSys)
    (canvas : PImage) (w h : ℤ) (pth : String) :
    (render_image_background P fs canvas w h pth).width = canvas.width ∧
    (render_image_background P fs canvas w h pth).height = canvas.height := by
  unfold render_image_background
  rcases fs pth with _ | bg0
  · exact ⟨rfl, rfl⟩
  · dsimp only
    split_ifs <;> exact ⟨rfl, rfl⟩

/-- Compositing one shadow layer never changes the canvas size. -/
theorem render_shadow_layer_width (P : RenderPrims) (s x y w h r : ℚ)
    (cv cv2 : PImage) (layer : ShadowLayer)
    (hl : render_shadow_layer P s x y w h r cv layer = some cv2) :
    cv2.width = cv.width ∧ cv2.height = cv.height := by
  unfold render_shadow_layer at hl
  dsimp only at hl
  split_ifs at hl <;> simp_all <;> subst hl <;> exact ⟨rfl, rfl⟩

/-- Rendering the whole shadow stack never changes the canvas size. -/
theorem render_shadow_width (P : RenderPrims) (canvas cv2 : PImage)
    (x y w h r : ℚ) (shadow : ShadowConfig)
    (hs : render_shadow P canvas x y w h r shadow = some cv2) :
    cv2.width = canvas.width ∧ cv2.height = canvas.height := by
  unfold render_shadow at hs
  split_ifs at hs
  · obtain rfl : canvas = cv2 := Option.some.inj hs
    exact ⟨rfl, rfl⟩
  · generalize hg : shadow.layers = ls at hs
    clear hg
    induction ls generalizing canvas with
    | nil =>
      obtain rfl : canvas = cv2 := Option.some.inj (by simpa using hs)
      exact ⟨rfl, rfl⟩
    | cons l ls ih =>
      rw [List.foldlM_cons] at hs
      rcases h1 : render_shadow_layer P shadow.strength x y w h r canvas l with _ | cv1
      · rw [h1] at hs
        simp at hs
      · rw [h1] at hs
        simp only [Option.bind_eq_bind, Option.some_bind] at hs
        obtain ⟨hw, hh⟩ := render_shadow_layer_width _ _ _ _ _ _ _ _ _ _ h1
        obtain ⟨hw2, hh2⟩ := ih cv1 hs
        exact ⟨hw2.trans hw, hh2.trans hh⟩

/-- Rendering the card never changes the canvas size. -/
theorem render_card_width (P : RenderPrims) (canvas card cv2 : PImage)
    (x y w h r : ℚ) (hc : render_card P canvas card x y w h r = some cv2) :
    cv2.width = canvas.width ∧ cv2.height = canvas.height := by
  unfold render_card at hc
  dsimp only at hc
  split_ifs at hc
  all_goals (cases hc ; try exact ⟨rfl, rfl⟩)

/-- Painting the selected background never changes the surface size. -/
theorem render_background_width (P : RenderPrims) (fs : FileSys)
    (canvas : PImage) (bg : BackgroundConfig) (w h : ℤ) :
    (render_background P fs canvas bg w h).width = canvas.width ∧
    (render_background P fs canvas bg w h).height = canvas.height := by
  unfold render_background
  split_ifs with h1
  · exact render_gradient_background_width P canvas w h bg.preset_id
  · rcases bg.image_path with _ | pth
    · exact render_gradient_background_width P canvas w h "sky"
    · dsimp only
      split_ifs
      · exact render_image_background_width P fs canvas w h pth
      · exact render_gradient_background_width P canvas w h "sky"

/-- Size characterization of a successful `render_image`: the canvas is the
`compute_output_size` result unless the effective padding exceeds the
configured padding, in which case it is the card size plus twice the
effective padding. -/
theorem render_image_size (P : RenderPrims) (fs : FileSys)
    (padding_px radius_px : ℤ) (shadow : ShadowConfig) (bg : BackgroundConfig)
    (out : OutputConfig) (insets : BalancedInsets) (img o : PImage)
    (h : render_image P fs padding_px radius_px shadow bg out insets img = some o) :
    ∃ card a b, apply_insets img insets = some card ∧
      compute_output_size out padding_px img = some [a, b] ∧
      (o.width, o.height) =
        (((if padding_px < effective_padding_of padding_px shadow then
            ((card.width : ℤ) + effective_padding_of padding_px shadow * 2,
             (card.height : ℤ) + effective_padding_of padding_px shadow * 2)
           else (a, b)) : ℤ × ℤ).1.toNat,
         ((if padding_px < effective_padding_of padding_px shadow then
            ((card.width : ℤ) + effective_padding_of padding_px shadow * 2,
             (card.height : ℤ) + effective_padding_of padding_px shadow * 2)
           else (a, b)) : ℤ × ℤ).2.toNat) := by
  unfold render_image at h
  rcases hc : apply_insets img insets with _ | card
  · rw [hc] at h
    simp at h
  rw [hc] at h
  simp only [Option.bind_eq_bind, Option.some_bind] at h
  rcases hs : compute_output_size out padding_px img with _ | sl
  · rw [hs] at h
    simp at h
  rw [hs] at h
  simp only [Option.some_bind] at h
  rcases sl with _ | ⟨a, _ | ⟨b, _ | ⟨c, tl⟩⟩⟩
  · simp at h
  · simp at h
  case some.some.cons.cons.nil =>
    refine ⟨card, a, b, rfl, rfl, ?_⟩
    simp only [Option.some_bind] at h
    generalize hwh : (if padding_px < effective_padding_of padding_px shadow then
        ((card.width : ℤ) + effective_padding_of padding_px shadow * 2,
         (card.height : ℤ) + effective_padding_of padding_px shadow * 2)
      else (a, b)) = wh at h ⊢
    split_ifs at h with hneg
    obtain ⟨cv3, hsh, h⟩ := Option.bind_eq_some.mp h
    obtain ⟨cv4, hcd, h2⟩ := Option.bind_eq_some.mp h
    obtain rfl : cv4 = o := Option.some.inj h2
    obtain ⟨hw3, hh3⟩ := render_card_width _ _ _ _ _ _ _ _ _ hcd
    obtain ⟨hw2, hh2⟩ := render_shadow_width _ _ _ _ _ _ _ _ _ hsh
    obtain ⟨hwb, hhb⟩ := render_background_width P fs
      (new_canvas wh.1.toNat wh.2.toNat) bg wh.1 wh.2
    refine Prod.ext ?_ ?_
    · exact hw3.trans (hw2.trans hwb)
    · exact hh3.trans (hh2.trans hhb)
  · simp at h

/-- `compute_output_size` in `autoRatio` mode: input size plus twice the
padding on each axis. -/
theorem compute_output_size_autoRatio (out : OutputConfig) (pad : ℤ)
    (img : PImage) (hm : out.mode = "autoRatio") :
    compute_output_size out pad img =
      some [(img.width : ℤ) + pad * 2, (img.height : ℤ) + pad * 2] := by
  simp [compute_output_size, hm]

/-- `compute_output_size` in `fixedSize` mode: the literal stored size. -/
theorem compute_output_size_fixedSize (out : OutputConfig) (pad : ℤ)
    (img : PImage) (hm : out.mode = "fixedSize") :
    compute_output_size out pad img = some out.size_px := by
  simp [compute_output_size, hm]

set_option maxHeartbeats 3200000 in
/-- Evaluation of the C5 scenario: the rendered canvas is 400 x 400 (the
uncropped 200 x 200 input plus twice the 100 px padding), even though the
card is only 180 x 180. -/
theorem c5_render_size_eval :
    render_size id_prims no_fs c5_state coord_image_200 = some (400, 400) := by
  norm_num [render_size, render_full, insets_for, c5_state, compute_manual_insets,
    render_image, apply_insets, apply_insets_box, scale_pair, compute_output_size,
    effective_padding_of, shadow_margin_of, render_shadow, render_card,
    render_background, render_gradient_background, bg_preset_get,
    background_presets, coord_image_200, crop_image, new_canvas, resize_image,
    id_prims, Option.bind_eq_bind, Option.some_bind,
    show ¬("manual" = "balance") from by decide,
    show ¬("autoRatio" = "fixedSize") from by decide,
    show ¬("autoRatio" = "platform") from by decide,
    show ¬("autoRatio" = "fixedRatio") from by decide]
  refine ⟨_, ⟨?_, rfl⟩, rfl, rfl⟩
  norm_num [show Int.toNat 180 = 180 from rfl]

set_option maxHeartbeats 3200000 in
/-- Evaluation of the C6 scenario: although the output mode is `fixedSize`
1920 x 1080, the active shadow raises the effective padding above the zero
configured padding, and the rendered canvas is 216 x 216 instead. -/
theorem c6_render_size_eval :
    render_size id_prims no_fs c6_state coord_image_200 = some (216, 216) := by
  norm_num [render_size, render_full, insets_for, c6_state, compute_manual_insets,
    render_image, apply_insets, apply_insets_box, scale_pair, compute_output_size,
    effective_padding_of, shadow_margin_of, render_shadow, render_shadow_layer,
    render_card, render_background, render_gradient_background, bg_preset_get,
    background_presets, coord_image_200, crop_image, new_canvas, resize_image,
    id_prims, Option.bind_eq_bind, Option.some_bind,
    show Int.toNat 216 = 216 from rfl,
    show ¬("manual" = "balance") from by decide]

/-- The output image of `render_full` does not depend on the cached
`balanced_insets_px` field: the renderer writes it but never reads it. -/
theorem render_full_fst_set_balanced_cache (P : RenderPrims) (fs : FileSys)
    (st : CompositionState) (img : PImage) (v : Value) :
    (render_full P fs (set_balanced_cache st v) img).1 =
      (render_full P fs st img).1 := by
  obtain ⟨pd, ⟨m, sr, mp, b⟩, r, sh, bg, o⟩ := st
  rfl

/-- After a `render_full` call the state differs from the input state at most
in the cached `balanced_insets_px` field. -/
theorem render_full_snd_shape (P : RenderPrims) (fs : FileSys)
    (st : CompositionState) (img : PImage) :
    (render_full P fs st img).2 = st ∨
      (render_full P fs st img).2 =
        set_balanced_cache st
          (balanced_insets_as_dict (insets_for P.det st.inset img)) := by
  unfold render_full
  dsimp only
  split_ifs
  · right
    rfl
  · left
    rfl

/-- Core safety bound of the balance engine: each computed inset stays below
the safe trim `max 0 (content bound - margin)` of its edge, for any detector
outputs and any strength in `[0, 1]`. -/
theorem balanced_insets_le_safe (d : Detectors) (img : PImage) (strength : ℚ)
    (iwc : Bool) (margin : ℤ) (ub : ℚ)
    (h0 : 0 ≤ strength) (h1 : strength ≤ 1) :
    (compute_balanced_insets d img strength iwc margin ub).left ≤
      max 0 ((content_bounds_of d img iwc).left - margin) ∧
    (compute_balanced_insets d img strength iwc margin ub).right ≤
      max 0 ((img.width : ℤ) - (content_bounds_of d img iwc).right - margin) ∧
    (compute_balanced_insets d img strength iwc margin ub).top ≤
      max 0 ((content_bounds_of d img iwc).top - margin) ∧
    (compute_balanced_insets d img strength iwc margin ub).bottom ≤
      max 0 ((img.height : ℤ) - (content_bounds_of d img iwc).bottom - margin) := by
  unfold compute_balanced_insets
  dsimp only
  split_ifs with hx hy hy2
  all_goals
    refine ⟨py_int_mul_strength_le h0 h1 ?_ (le_max_left _ _),
            py_int_mul_strength_le h0 h1 ?_ (le_max_left _ _),
            py_int_mul_strength_le h0 h1 ?_ (le_max_left _ _),
            py_int_mul_strength_le h0 h1 ?_ (le_max_left _ _)⟩
  all_goals omega

/-- Looking up a key skips a leading entry with a different key. -/
theorem dict_get_cons_ne (d : List (String × Value)) (k k2 : String) (v : Value)
    (h : ¬(k2 = k)) : dict_get ((k2, v) :: d) k = dict_get d k := by
  simp [dict_get, h]

/-- Looking up a key finds a leading entry with that key. -/
theorem dict_get_cons_eq (d : List (String × Value)) (k : String) (v : Value) :
    dict_get ((k, v) :: d) k = some v := by
  simp [dict_get]

/-- An unknown key prepended at the top level of a persisted structure never
changes what `from_dict` reconstructs. -/
theorem from_dict_ignores_unknown_top (dta : List (String × Value))
    (k : String) (v : Value) (hk : k ∉ top_level_keys) :
    composition_state_from_dict ((k, v) :: dta) =
      composition_state_from_dict dta := by
  simp only [top_level_keys, List.mem_cons, List.not_mem_nil, or_false, not_or] at hk
  obtain ⟨h1, h2, h3, h4, h5, h6⟩ := hk
  simp only [composition_state_from_dict, dict_get_cons_ne _ _ _ _ h1,
    dict_get_cons_ne _ _ _ _ h2, dict_get_cons_ne _ _ _ _ h3,
    dict_get_cons_ne _ _ _ _ h4, dict_get_cons_ne _ _ _ _ h5,
    dict_get_cons_ne _ _ _ _ h6]

/-- An unknown key prepended inside the `inset` sub-dict never changes the
reconstructed inset block. -/
theorem inset_section_ignores_unknown (sub : List (String × Value))
    (k : String) (v : Value) (hk : k ∉ inset_section_keys) :
    inset_section ((k, v) :: sub) = inset_section sub := by
  simp only [inset_section_keys, List.mem_cons, List.not_mem_nil, or_false,
    not_or] at hk
  obtain ⟨h1, h2, h3, h4⟩ := hk
  simp only [inset_section, dict_get_cons_ne _ _ _ _ h1,
    dict_get_cons_ne _ _ _ _ h2, dict_get_cons_ne _ _ _ _ h3,
    dict_get_cons_ne _ _ _ _ h4]

/-- An unknown key prepended inside the `shadow` sub-dict (outside the layer
entries) never changes the reconstructed shadow block. -/
theorem shadow_section_ignores_unknown (sub : List (String × Value))
    (k : String) (v : Value) (hk : k ∉ shadow_section_keys) :
    shadow_section ((k, v) :: sub) = shadow_section sub := by
  simp only [shadow_section_keys, List.mem_cons, List.not_mem_nil, or_false,
    not_or] at hk
  obtain ⟨h1, h2⟩ := hk
  simp only [shadow_section, dict_get_cons_ne _ _ _ _ h1,
    dict_get_cons_ne _ _ _ _ h2]

/-- An unknown key prepended inside the `background` sub-dict never changes
the reconstructed background block. -/
theorem background_section_ignores_unknown (sub : List (String × Value))
    (k : String) (v : Value) (hk : k ∉ background_section_keys) :
    background_section ((k, v) :: sub) = background_section sub := by
  simp only [background_section_keys, List.mem_cons, List.not_mem_nil, or_false,
    not_or] at hk
  obtain ⟨h1, h2, h3⟩ := hk
  simp only [background_section, dict_get_cons_ne _ _ _ _ h1,
    dict_get_cons_ne _ _ _ _ h2, dict_get_cons_ne _ _ _ _ h3]

/-- An unknown key prepended inside the `output` sub-dict never changes the
reconstructed output block. -/
theorem output_section_ignores_unknown (sub : List (String × Value))
    (k : String) (v : Value) (hk : k ∉ output_section_keys) :
    output_section ((k, v) :: sub) = output_section sub := by
  simp only [output_section_keys, List.mem_cons, List.not_mem_nil, or_false,
    not_or] at hk
  obtain ⟨h1, h2, h3, h4⟩ := hk
  simp only [output_section, dict_get_cons_ne _ _ _ _ h1,
    dict_get_cons_ne _ _ _ _ h2, dict_get_cons_ne _ _ _ _ h3,
    dict_get_cons_ne _ _ _ _ h4]

/-- `read_section` on a present dict value parses it with the section reader. -/
theorem read_section_some_dict {A : Type} (f : List (String × Value) → Option A)
    (dflt : A) (d : List (String × Value)) :
    read_section f dflt (some (.vDict d)) = f d := rfl

/-- An unknown extra field inside the `inset` sub-dict never changes what
`from_dict` reconstructs. -/
theorem from_dict_ignores_unknown_inset (rest sub : List (String × Value))
    (k : String) (v : Value) (hk : k ∉ inset_section_keys) :
    composition_state_from_dict (("inset", .vDict ((k, v) :: sub)) :: rest) =
      composition_state_from_dict (("inset", .vDict sub) :: rest) := by
  simp only [composition_state_from_dict, dict_get_cons_eq, read_section_some_dict,
    dict_get_cons_ne _ _ _ _ (show ¬("inset" = "padding_px") from by decide),
    dict_get_cons_ne _ _ _ _ (show ¬("inset" = "radius_px") from by decide),
    dict_get_cons_ne _ _ _ _ (show ¬("inset" = "shadow") from by decide),
    dict_get_cons_ne _ _ _ _ (show ¬("inset" = "background") from by decide),
    dict_get_cons_ne _ _ _ _ (show ¬("inset" = "output") from by decide),
    inset_section_ignores_unknown sub k v hk]

/-- An unknown extra field inside the `shadow` sub-dict (outside the layer
entries) never changes what `from_dict` reconstructs. -/
theorem from_dict_ignores_unknown_shadow (rest sub : List (String × Value))
    (k : String) (v : Value) (hk : k ∉ shadow_section_keys) :
    composition_state_from_dict (("shadow", .vDict ((k, v) :: sub)) :: rest) =
      composition_state_from_dict (("shadow", .vDict sub) :: rest) := by
  simp only [composition_state_from_dict, dict_get_cons_eq, read_section_some_dict,
    dict_get_cons_ne _ _ _ _ (show ¬("shadow" = "padding_px") from by decide),
    dict_get_cons_ne _ _ _ _ (show ¬("shadow" = "radius_px") from by decide),
    dict_get_cons_ne _ _ _ _ (show ¬("shadow" = "inset") from by decide),
    dict_get_cons_ne _ _ _ _ (show ¬("shadow" = "background") from by decide),
    dict_get_cons_ne _ _ _ _ (show ¬("shadow" = "output") from by decide),
    shadow_section_ignores_unknown sub k v hk]

/-- An unknown extra field inside the `background` sub-dict never changes
what `from_dict` reconstructs. -/
theorem from_dict_ignores_unknown_background (rest sub : List (String × Value))
    (k : String) (v : Value) (hk : k ∉ background_section_keys) :
    composition_state_from_dict (("background", .vDict ((k, v) :: sub)) :: rest) =
      composition_state_from_dict (("background", .vDict sub) :: rest) := by
  simp only [composition_state_from_dict, dict_get_cons_eq, read_section_some_dict,
    dict_get_cons_ne _ _ _ _ (show ¬("background" = "padding_px") from by decide),
    dict_get_cons_ne _ _ _ _ (show ¬("background" = "radius_px") from by decide),
    dict_get_cons_ne _ _ _ _ (show ¬("background" = "inset") from by decide),
    dict_get_cons_ne _ _ _ _ (show ¬("background" = "shadow") from by decide),
    dict_get_cons_ne _ _ _ _ (show ¬("background" = "output") from by decide),
    background_section_ignores_unknown sub k v hk]

/-- An unknown extra field inside the `output` sub-dict never changes what
`from_dict` reconstructs. -/
theorem from_dict_ignores_unknown_output (rest sub : List (String × Value))
    (k : String) (v : Value) (hk : k ∉ output_section_keys) :
    composition_state_from_dict (("output", .vDict ((k, v) :: sub)) :: rest) =
      composition_state_from_dict (("output", .vDict sub) :: rest) := by
  simp only [composition_state_from_dict, dict_get_cons_eq, read_section_some_dict,
    dict_get_cons_ne _ _ _ _ (show ¬("output" = "padding_px") from by decide),
    dict_get_cons_ne _ _ _ _ (show ¬("output" = "radius_px") from by decide),
    dict_get_cons_ne _ _ _ _ (show ¬("output" = "inset") from by decide),
    dict_get_cons_ne _ _ _ _ (show ¬("output" = "shadow") from by decide),
    dict_get_cons_ne _ _ _ _ (show ¬("output" = "background") from by decide),
    output_section_ignores_unknown sub k v hk]

/-- A structure with no known keys reconstructs the constructor defaults. -/
theorem from_dict_empty :
    composition_state_from_dict [] = some default_composition_state := rfl

/-- `setattr` via a keyword whose name is no attribute of `CompositionState`
leaves the state untouched. -/
theorem set_state_field_unknown (s : CompositionState) (k : String)
    (v : StateFieldValue) (hk : k ∉ composition_state_attrs) :
    set_state_field s k v = s := by
  simp only [composition_state_attrs, List.mem_cons, List.not_mem_nil, or_false,
    not_or] at hk
  obtain ⟨h1, h2, h3, h4, h5, h6, h7, h8⟩ := hk
  simp [set_state_field, h1, h2, h3, h4, h5, h6]

/-- `update_state` with only unknown keyword names: the state survives
unchanged and only the cache flag drops. -/
theorem update_state_unknown_keys (kwargs : List (String × StateFieldValue))
    (p : CompositionPipeline)
    (h : ∀ kv ∈ kwargs, kv.1 ∉ composition_state_attrs) :
    update_state kwargs p = { p with cache_valid := false } := by
  unfold update_state
  suffices hs : kwargs.foldl (fun s kv => set_state_field s kv.1 kv.2) p.state
      = p.state by rw [hs]
  have hgen : ∀ s : CompositionState,
      kwargs.foldl (fun s kv => set_state_field s kv.1 kv.2) s = s := by
    induction kwargs with
    | nil => intro s; rfl
    | cons hd tl ih =>
      intro s
      rw [List.foldl_cons,
        set_state_field_unknown s hd.1 hd.2 (h hd (List.mem_cons_self hd tl))]
      exact ih (fun kv hv => h kv (List.mem_cons_of_mem hd hv)) s
  exact hgen p.state


/-- Folding `min` over a list yields a value that is in the list (or the
seed) and below the seed and every element. -/
theorem foldl_min_spec (l : List ℕ) (a : ℕ) :
    (l.foldl min a = a ∨ l.foldl min a ∈ l) ∧ l.foldl min a ≤ a ∧
      ∀ b ∈ l, l.foldl min a ≤ b := by
  induction l generalizing a with
  | nil => exact ⟨Or.inl rfl, le_refl a, by simp⟩
  | cons x t ih =>
    obtain ⟨hmem, hle, hall⟩ := ih (min a x)
    rw [List.foldl_cons]
    refine ⟨?_, ?_, ?_⟩
    · rcases hmem with he | hm
      · rcases min_cases a x with ⟨hax, _⟩ | ⟨hax, _⟩
        · exact Or.inl (he.trans hax)
        · exact Or.inr (by rw [he, hax]; exact List.mem_cons_self x t)
      · exact Or.inr (List.mem_cons_of_mem x hm)
    · exact hle.trans (min_le_left a x)
    · intro b hb
      rcases List.mem_cons.mp hb with rfl | hbt
      · exact hle.trans (min_le_right a b)
      · exact hall b hbt

/-- Folding `max` over a list yields a value that is in the list (or the
seed) and above the seed and every element. -/
theorem foldl_max_spec (l : List ℕ) (a : ℕ) :
    (l.foldl max a = a ∨ l.foldl max a ∈ l) ∧ a ≤ l.foldl max a ∧
      ∀ b ∈ l, b ≤ l.foldl max a := by
  induction l generalizing a with
  | nil => exact ⟨Or.inl rfl, le_refl a, by simp⟩
  | cons x t ih =>
    obtain ⟨hmem, hle, hall⟩ := ih (max a x)
    rw [List.foldl_cons]
    refine ⟨?_, ?_, ?_⟩
    · rcases hmem with he | hm
      · rcases max_cases a x with ⟨hax, _⟩ | ⟨hax, _⟩
        · exact Or.inl (he.trans hax)
        · exact Or.inr (by rw [he, hax]; exact List.mem_cons_self x t)
      · exact Or.inr (List.mem_cons_of_mem x hm)
    · exact (le_max_left a x).trans hle
    · intro b hb
      rcases List.mem_cons.mp hb with rfl | hbt
      · exact (le_max_right a b).trans hle
      · exact hall b hbt

/-- `alpha_bbox` on an image whose above-threshold pixels are exactly the
rectangle `[x0, x1] x [y0, y1]` is that rectangle (exclusive right/bottom). -/
theorem alpha_bbox_rect (img : PImage) (thr x0 y0 x1 y1 : ℕ)
    (hx1 : x1 < img.width) (hy1 : y1 < img.height)
    (hx : x0 ≤ x1) (hy : y0 ≤ y1)
    (hchar : ∀ x y : ℕ, x < img.width → y < img.height →
      (thr < (img.px x y).2.2.2 ↔ (x0 ≤ x ∧ x ≤ x1 ∧ y0 ≤ y ∧ y ≤ y1))) :
    alpha_bbox img thr = some (x0, y0, x1 + 1, y1 + 1) := by
  have hmem : ∀ p : ℕ × ℕ, p ∈ over_threshold_cells img thr ↔
      (x0 ≤ p.1 ∧ p.1 ≤ x1 ∧ y0 ≤ p.2 ∧ p.2 ≤ y1) := by
    rintro ⟨x, y⟩
    simp only [over_threshold_cells, List.mem_flatMap, List.mem_filterMap,
      List.mem_range]
    constructor
    · rintro ⟨y2, hy2, x2, hx2, hf⟩
      split_ifs at hf with hc
      · have hp := Option.some.inj hf
        have hxe : x2 = x := congrArg Prod.fst hp
        have hye : y2 = y := congrArg Prod.snd hp
        subst hxe
        subst hye
        exact (hchar x2 y2 hx2 hy2).mp hc
    · rintro ⟨h1, h2, h3, h4⟩
      refine ⟨y, lt_of_le_of_lt h4 hy1, x, lt_of_le_of_lt h2 hx1, ?_⟩
      rw [if_pos ((hchar x y (lt_of_le_of_lt h2 hx1) (lt_of_le_of_lt h4 hy1)).mpr
        ⟨h1, h2, h3, h4⟩)]
  have hcorner : (x0, y0) ∈ over_threshold_cells img thr :=
    (hmem (x0, y0)).mpr ⟨le_refl x0, hx, le_refl y0, hy⟩
  rcases hcells : over_threshold_cells img thr with _ | ⟨c, cs⟩
  · rw [hcells] at hcorner
    cases hcorner
  rw [hcells] at hcorner hmem
  have hcmem : c ∈ c :: cs := List.mem_cons_self c cs
  unfold alpha_bbox
  rw [hcells]
  dsimp only
  have hminx : (c :: cs).foldl (fun a p => min a p.1) c.1 = x0 := by
    have hmap : List.foldl (fun a p => min a p.1) c.1 (c :: cs)
        = List.foldl min c.1 ((c :: cs).map Prod.fst) :=
      (List.foldl_map Prod.fst min (c :: cs) c.1).symm
    rw [hmap]
    obtain ⟨hm, hle, hall⟩ := foldl_min_spec ((c :: cs).map Prod.fst) c.1
    refine le_antisymm ?_ ?_
    · exact hall x0 (List.mem_map.mpr ⟨(x0, y0), hcorner, rfl⟩)
    · rcases hm with he | hin
      · rw [he]
        exact ((hmem c).mp hcmem).1
      · obtain ⟨p, hp, hpe⟩ := List.mem_map.mp hin
        rw [← hpe]
        exact ((hmem p).mp hp).1
  have hminy : (c :: cs).foldl (fun a p => min a p.2) c.2 = y0 := by
    have hmap : List.foldl (fun a p => min a p.2) c.2 (c :: cs)
        = List.foldl min c.2 ((c :: cs).map Prod.snd) :=
      (List.foldl_map Prod.snd min (c :: cs) c.2).symm
    rw [hmap]
    obtain ⟨hm, hle, hall⟩ := foldl_min_spec ((c :: cs).map Prod.snd) c.2
    refine le_antisymm ?_ ?_
    · exact hall y0 (List.mem_map.mpr ⟨(x0, y0), hcorner, rfl⟩)
    · rcases hm with he | hin
      · rw [he]
        exact ((hmem c).mp hcmem).2.2.1
      · obtain ⟨p, hp, hpe⟩ := List.mem_map.mp hin
        rw [← hpe]
        exact ((hmem p).mp hp).2.2.1
  have hmaxx : (c :: cs).foldl (fun a p => max a p.1) c.1 = x1 := by
    have hmap : List.foldl (fun a p => max a p.1) c.1 (c :: cs)
        = List.foldl max c.1 ((c :: cs).map Prod.fst) :=
      (List.foldl_map Prod.fst max (c :: cs) c.1).symm
    rw [hmap]
    obtain ⟨hm, hle, hall⟩ := foldl_max_spec ((c :: cs).map Prod.fst) c.1
    have hcornerx : (x1, y0) ∈ c :: cs := (hmem (x1, y0)).mpr
      ⟨hx, le_refl x1, le_refl y0, hy⟩
    refine le_antisymm ?_ ?_
    · rcases hm with he | hin
      · rw [he]
        exact ((hmem c).mp hcmem).2.1
      · obtain ⟨p, hp, hpe⟩ := List.mem_map.mp hin
        rw [← hpe]
        exact ((hmem p).mp hp).2.1
    · exact hall x1 (List.mem_map.mpr ⟨(x1, y0), hcornerx, rfl⟩)
  have hmaxy : (c :: cs).foldl (fun a p => max a p.2) c.2 = y1 := by
    have hmap : List.foldl (fun a p => max a p.2) c.2 (c :: cs)
        = List.foldl max c.2 ((c :: cs).map Prod.snd) :=
      (List.foldl_map Prod.snd max (c :: cs) c.2).symm
    rw [hmap]
    obtain ⟨hm, hle, hall⟩ := foldl_max_spec ((c :: cs).map Prod.snd) c.2
    have hcornery : (x0, y1) ∈ c :: cs := (hmem (x0, y1)).mpr
      ⟨le_refl x0, hx, hy, le_refl y1⟩
    refine le_antisymm ?_ ?_
    · rcases hm with he | hin
      · rw [he]
        exact ((hmem c).mp hcmem).2.2.2
      · obtain ⟨p, hp, hpe⟩ := List.mem_map.mp hin
        rw [← hpe]
        exact ((hmem p).mp hp).2.2.2
    · exact hall y1 (List.mem_map.mpr ⟨(x0, y1), hcornery, rfl⟩)
  rw [hminx, hminy, hmaxx, hmaxy]

/-- The opaque box of `border50_image` at threshold 250: exactly 50 x 50. -/
theorem border50_bbox_250 : alpha_bbox border50_image 250 = some (1, 1, 51, 51) := by
  refine alpha_bbox_rect _ 250 1 1 50 50 (by decide) (by decide) (by decide) (by decide) ?_
  intro x y hx hy
  by_cases hc : 1 ≤ x ∧ x ≤ 50 ∧ 1 ≤ y ∧ y ≤ 50
  · simp [border50_image, hc]
  · simp [border50_image, hc]

/-- The shadow box of `border50_image` at threshold 50: the same region. -/
theorem border50_bbox_50 : alpha_bbox border50_image 50 = some (1, 1, 51, 51) := by
  refine alpha_bbox_rect _ 50 1 1 50 50 (by decide) (by decide) (by decide) (by decide) ?_
  intro x y hx hy
  by_cases hc : 1 ≤ x ∧ x ≤ 50 ∧ 1 ≤ y ∧ y ≤ 50
  · simp [border50_image, hc]
  · simp [border50_image, hc]

/-- The opaque box of the fully opaque 51 x 51 image: the whole image. -/
theorem opaque51_bbox : alpha_bbox opaque51_image 250 = some (0, 0, 51, 51) := by
  refine alpha_bbox_rect _ 250 0 0 50 50 (by decide) (by decide) (by decide) (by decide) ?_
  intro x y hx hy
  simp only [opaque51_image, solid_image] at hx hy ⊢
  omega

/-- `border50_image` falls through to the tier-2 shadow crop: the opaque box
is exactly 50 px on both axes, which the source's strict `> 50` test
rejects, so the output is the expanded shadow box, not the opaque box. -/
theorem strip_border50 :
    strip_transparent_borders border50_image = crop_image border50_image 0 0 52 52 := by
  have hm : (border50_image.mode ≠ "RGBA") = False := by simp [border50_image]
  simp only [strip_transparent_borders, hm, ite_false, if_false,
    border50_bbox_250, border50_bbox_50]
  norm_num [border50_image]

/-- The crop box `apply_insets` computes in Scenario E (200 x 200, insets
150/150/0/0): the scale is `150/300 = 0.5`, so both side insets become 75. -/
theorem apply_insets_box_scenario_e :
    apply_insets_box 200 200 ⟨150, 150, 0, 0⟩ = some (75, 0, 125, 200) := by
  simp [apply_insets_box, scale_pair, bind, py_int]
  norm_num [py_int]

/-- The inset selection of the C5 scenario: manual mode, 10 px each side. -/
theorem c5_insets_eval :
    insets_for id_prims.det c5_state.inset coord_image_200 = ⟨10, 10, 10, 10⟩ := by
  simp [insets_for, c5_state, compute_manual_insets,
    show ¬("manual" = "balance") from by decide]

/-- The card of the C5 scenario: 180 x 180 from the 200 x 200 input. -/
theorem c5_card_eval :
    (apply_insets coord_image_200
        (insets_for id_prims.det c5_state.inset coord_image_200)).map
      (fun c => (c.width, c.height)) = some (180, 180) := by
  rw [c5_insets_eval]
  norm_num [apply_insets, apply_insets_box, scale_pair, coord_image_200,
    crop_image, Option.bind_eq_bind, Option.some_bind,
    show Int.toNat 180 = 180 from rfl]

/-- The effective padding of the C5 scenario equals the configured padding:
the shadow is disabled, so no margin is added. -/
theorem c5_effective_padding_eval :
    effective_padding_of c5_state.padding_px c5_state.shadow = c5_state.padding_px := by
  norm_num [effective_padding_of, shadow_margin_of, c5_state]

/-- Claim C1 (code bug). The claim says `apply_insets` always returns an
image at least `max(50, w//10)` by `max(50, h//10)`, for every input image
and arbitrary insets. The code itself promises this ("always leaves at least
10% of the original image in each dimension"), but on a 40 x 40 image with
all-zero insets the combined inset total is 0 while the horizontal cap is
`40 - max(50, 4) = -10`, so the scaling block computes `scale = -10 / 0` and
raises `ZeroDivisionError`: no image is returned at all. -/
theorem claim_C1_apply_insets_raises_on_small_image :
    apply_insets (solid_image 40 40 (0, 0, 0, 255)) ⟨0, 0, 0, 0⟩ = none := rfl

/-- Claim C2 (confirmed). For every image, every strength in [0,1] — and any
detector outputs, any margin, any upward bias — each of the four insets
computed by `compute_balanced_insets` is at most the safe trim
`max 0 (content_bound_edge - margin)` derived from the detected-or-fallback
content bounds, so the crop never reaches into the content region plus
margin. -/
theorem claim_C2_insets_le_safe_trim (d : Detectors) (img : PImage)
    (strength : ℚ) (iwc : Bool) (margin : ℤ) (ub : ℚ)
    (h0 : 0 ≤ strength) (h1 : strength ≤ 1) :
    (compute_balanced_insets d img strength iwc margin ub).left ≤
      max 0 ((content_bounds_of d img iwc).left - margin) ∧
    (compute_balanced_insets d img strength iwc margin ub).right ≤
      max 0 ((img.width : ℤ) - (content_bounds_of d img iwc).right - margin) ∧
    (compute_balanced_insets d img strength iwc margin ub).top ≤
      max 0 ((content_bounds_of d img iwc).top - margin) ∧
    (compute_balanced_insets d img strength iwc margin ub).bottom ≤
      max 0 ((img.height : ℤ) - (content_bounds_of d img iwc).bottom - margin) :=
  balanced_insets_le_safe d img strength iwc margin ub h0 h1

/-- Witness for claim C2 at a concrete scenario: nonzero detector results, a
200 x 200 input, strength 1/2, the default margin 16 and upward bias 1/20. -/
theorem claim_C2_witness :
    (compute_balanced_insets boxy_detectors coord_image_200 (1/2) false 16 (1/20)).left ≤
      max 0 ((content_bounds_of boxy_detectors coord_image_200 false).left - 16) ∧
    (compute_balanced_insets boxy_detectors coord_image_200 (1/2) false 16 (1/20)).right ≤
      max 0 ((coord_image_200.width : ℤ) -
        (content_bounds_of boxy_detectors coord_image_200 false).right - 16) ∧
    (compute_balanced_insets boxy_detectors coord_image_200 (1/2) false 16 (1/20)).top ≤
      max 0 ((content_bounds_of boxy_detectors coord_image_200 false).top - 16) ∧
    (compute_balanced_insets boxy_detectors coord_image_200 (1/2) false 16 (1/20)).bottom ≤
      max 0 ((coord_image_200.height : ℤ) -
        (content_bounds_of boxy_detectors coord_image_200 false).bottom - 16) :=
  claim_C2_insets_le_safe_trim boxy_detectors coord_image_200 (1/2) false 16 (1/20)
    (by norm_num) (by norm_num)

/-- Claim C3 (confirmed). `CompositionRenderer.render` is deterministic: a
second invocation on the same input image — even on the state object the
first call mutated in place (the balanced-insets write-back) — produces the
same output, for any raster primitives and any fixed background filesystem.
The write-back is the method's only effect on the state and never feeds back
into the output. -/
theorem claim_C3_render_deterministic (P : RenderPrims) (fs : FileSys)
    (st : CompositionState) (img : PImage) :
    (render_full P fs ((render_full P fs st img).2) img).1 =
      (render_full P fs st img).1 := by
  rcases render_full_snd_shape P fs st img with h | h <;> rw [h]
  exact render_full_fst_set_balanced_cache P fs st img _

/-- Counterexample to claim C4 as stated: on a 200 x 200 image with insets
(150, 150, 0, 0), `apply_insets` does not yield left = right = 90. The cap
is `200 - max(50, 200 // 10) = 150` — not 180 — so each side becomes
`int(150 * (150/300)) = 75`: the crop box is (75, 0, 125, 200), and the box
the claim predicts, (90, 0, 140, 200), is not produced. -/
theorem claim_C4_counterexample :
    apply_insets_box 200 200 ⟨150, 150, 0, 0⟩ ≠ some (90, 0, 140, 200) := by
  rw [apply_insets_box_scenario_e]
  decide

/-- Claim C4, amended: on a 200 x 200 image with insets (150, 150, 0, 0),
`apply_insets` scales the side insets down so that their total is at most
`200 - max(50, 200 // 10) = 150`; each becomes 75 (not 90), giving the crop
box (75, 0, 125, 200). -/
theorem claim_C4_amended :
    apply_insets_box 200 200 ⟨150, 150, 0, 0⟩ = some (75, 0, 125, 200) ∧
    (75 : ℤ) + (200 - 125) ≤ 200 - max 50 (200 / 10) :=
  ⟨apply_insets_box_scenario_e, by decide⟩

/-- Counterexample to claim C5 as stated: in `autoRatio` mode with shadows
disabled (so the effective padding equals the configured 100 px padding) and
manual insets of 10 px, the card is 180 x 180 but the rendered canvas is
400 x 400 — the uncropped 200 x 200 input plus twice the padding — and not
`card + 2 * padding = 380`. -/
theorem claim_C5_counterexample :
    c5_state.output.mode = "autoRatio" ∧
    effective_padding_of c5_state.padding_px c5_state.shadow = c5_state.padding_px ∧
    (apply_insets coord_image_200
        (insets_for id_prims.det c5_state.inset coord_image_200)).map
      (fun c => (c.width, c.height)) = some (180, 180) ∧
    render_size id_prims no_fs c5_state coord_image_200 = some (400, 400) ∧
    ((400, 400) : ℕ × ℕ) ≠ (180 + 2 * 100, 180 + 2 * 100) :=
  ⟨rfl, c5_effective_padding_eval, c5_card_eval, c5_render_size_eval, by decide⟩

/-- Claim C5, amended: in `autoRatio` mode the rendered canvas measures the
uncropped input image's dimensions plus `2 * padding_px` on each axis — not
the card's — unless `effective_padding` exceeds `padding_px`, in which case
the canvas is the card plus twice the effective padding. -/
theorem claim_C5_amended (P : RenderPrims) (fs : FileSys)
    (st : CompositionState) (img : PImage) (wh : ℕ × ℕ)
    (hm : st.output.mode = "autoRatio")
    (hr : render_size P fs st img = some wh) :
    ∃ card, apply_insets img (insets_for P.det st.inset img) = some card ∧
      wh = (if st.padding_px < effective_padding_of st.padding_px st.shadow then
        (((card.width : ℤ) + effective_padding_of st.padding_px st.shadow * 2).toNat,
         ((card.height : ℤ) + effective_padding_of st.padding_px st.shadow * 2).toNat)
       else (((img.width : ℤ) + st.padding_px * 2).toNat,
             ((img.height : ℤ) + st.padding_px * 2).toNat)) := by
  unfold render_size render_full at hr
  dsimp only at hr
  obtain ⟨o, ho, hwh⟩ := Option.map_eq_some'.mp hr
  obtain ⟨card, a, b, hc, hcos, hdim⟩ :=
    render_image_size P fs st.padding_px st.radius_px st.shadow st.background
      st.output (insets_for P.det st.inset img) img o ho
  rw [compute_output_size_autoRatio st.output st.padding_px img hm] at hcos
  have hab := Option.some.inj hcos
  simp only [List.cons.injEq, and_true] at hab
  obtain ⟨ha, hb⟩ := hab
  refine ⟨card, hc, ?_⟩
  rw [← hwh, hdim]
  split_ifs with hp <;> simp [← ha, ← hb]

/-- Witness for the amended claim C5 at the concrete C5 scenario. -/
theorem claim_C5_witness :
    ∃ card, apply_insets coord_image_200
        (insets_for id_prims.det c5_state.inset coord_image_200) = some card ∧
      ((400, 400) : ℕ × ℕ) =
        (if c5_state.padding_px <
            effective_padding_of c5_state.padding_px c5_state.shadow then
          (((card.width : ℤ) +
              effective_padding_of c5_state.padding_px c5_state.shadow * 2).toNat,
           ((card.height : ℤ) +
              effective_padding_of c5_state.padding_px c5_state.shadow * 2).toNat)
         else (((coord_image_200.width : ℤ) + c5_state.padding_px * 2).toNat,
               ((coord_image_200.height : ℤ) + c5_state.padding_px * 2).toNat)) :=
  claim_C5_amended id_prims no_fs c5_state coord_image_200 (400, 400) rfl
    c5_render_size_eval

/-- Counterexample to claim C6 as stated: in `fixedSize` mode with
`size_px = (1920, 1080)`, zero padding and an active shadow (strength 1, one
layer), the shadow margin `int(0 * 1) + 8 = 8` exceeds the padding, so the
renderer overrides the fixed size and produces a 216 x 216 canvas — not
1920 x 1080. -/
theorem claim_C6_counterexample :
    c6_state.output.mode = "fixedSize" ∧
    c6_state.output.size_px = [1920, 1080] ∧
    render_size id_prims no_fs c6_state coord_image_200 = some (216, 216) ∧
    ((216, 216) : ℕ × ℕ) ≠ (1920, 1080) :=
  ⟨rfl, rfl, c6_render_size_eval, by decide⟩

/-- Claim C6, amended: in `fixedSize` mode the rendered canvas has exactly
the dimensions `size_px` only while `effective_padding ≤ padding_px`; when
the shadow margin pushes the effective padding above the configured padding,
the canvas becomes the card plus twice the effective padding instead. -/
theorem claim_C6_amended (P : RenderPrims) (fs : FileSys)
    (st : CompositionState) (img : PImage) (wh : ℕ × ℕ)
    (hm : st.output.mode = "fixedSize")
    (hr : render_size P fs st img = some wh) :
    ∃ card a b, apply_insets img (insets_for P.det st.inset img) = some card ∧
      st.output.size_px = [a, b] ∧
      wh = (if st.padding_px < effective_padding_of st.padding_px st.shadow then
        (((card.width : ℤ) + effective_padding_of st.padding_px st.shadow * 2).toNat,
         ((card.height : ℤ) + effective_padding_of st.padding_px st.shadow * 2).toNat)
       else (a.toNat, b.toNat)) := by
  unfold render_size render_full at hr
  dsimp only at hr
  obtain ⟨o, ho, hwh⟩ := Option.map_eq_some'.mp hr
  obtain ⟨card, a, b, hc, hcos, hdim⟩ :=
    render_image_size P fs st.padding_px st.radius_px st.shadow st.background
      st.output (insets_for P.det st.inset img) img o ho
  rw [compute_output_size_fixedSize st.output st.padding_px img hm] at hcos
  refine ⟨card, a, b, hc, Option.some.inj hcos, ?_⟩
  rw [← hwh, hdim]
  split_ifs with hp <;> simp

/-- Witness for the amended claim C6 at the concrete C6 scenario. -/
theorem claim_C6_witness :
    ∃ card a b, apply_insets coord_image_200
        (insets_for id_prims.det c6_state.inset coord_image_200) = some card ∧
      c6_state.output.size_px = [a, b] ∧
      ((216, 216) : ℕ × ℕ) =
        (if c6_state.padding_px <
            effective_padding_of c6_state.padding_px c6_state.shadow then
          (((card.width : ℤ) +
              effective_padding_of c6_state.padding_px c6_state.shadow * 2).toNat,
           ((card.height : ℤ) +
              effective_padding_of c6_state.padding_px c6_state.shadow * 2).toNat)
         else (a.toNat, b.toNat)) :=
  claim_C6_amended id_prims no_fs c6_state coord_image_200 (216, 216) rfl
    c6_render_size_eval

/-- Counterexample to claim C7 as stated: a persisted structure that is
well-formed except for one unknown extra key (`"color"`) inside a shadow
layer entry makes reconstruction fail — `ShadowLayer(**layer)` raises
`TypeError` on the unexpected keyword — instead of returning a state. -/
theorem claim_C7_counterexample :
    composition_state_from_dict c7_bad_data = none := rfl

/-- Claim C7, amended: reconstruction fills every missing field with the
constructor defaults (an empty structure loads as the default state), and
unknown extra fields are ignored at the top level and inside the `inset`,
`shadow`, `background` and `output` sub-structures; an unknown extra field
inside one entry of `shadow.layers`, however, makes loading fail. -/
theorem claim_C7_amended :
    composition_state_from_dict [] = some default_composition_state ∧
    (∀ (dta : List (String × Value)) (k : String) (v : Value),
      k ∉ top_level_keys →
      composition_state_from_dict ((k, v) :: dta) =
        composition_state_from_dict dta) ∧
    (∀ (rest sub : List (String × Value)) (k : String) (v : Value),
      k ∉ inset_section_keys →
      composition_state_from_dict (("inset", .vDict ((k, v) :: sub)) :: rest) =
        composition_state_from_dict (("inset", .vDict sub) :: rest)) ∧
    (∀ (rest sub : List (String × Value)) (k : String) (v : Value),
      k ∉ shadow_section_keys →
      composition_state_from_dict (("shadow", .vDict ((k, v) :: sub)) :: rest) =
        composition_state_from_dict (("shadow", .vDict sub) :: rest)) ∧
    (∀ (rest sub : List (String × Value)) (k : String) (v : Value),
      k ∉ background_section_keys →
      composition_state_from_dict (("background", .vDict ((k, v) :: sub)) :: rest) =
        composition_state_from_dict (("background", .vDict sub) :: rest)) ∧
    (∀ (rest sub : List (String × Value)) (k : String) (v : Value),
      k ∉ output_section_keys →
      composition_state_from_dict (("output", .vDict ((k, v) :: sub)) :: rest) =
        composition_state_from_dict (("output", .vDict sub) :: rest)) :=
  ⟨from_dict_empty, from_dict_ignores_unknown_top, from_dict_ignores_unknown_inset,
   from_dict_ignores_unknown_shadow, from_dict_ignores_unknown_background,
   from_dict_ignores_unknown_output⟩

/-- Witness for the amended claim C7: an unknown key at the top level and an
unknown key inside each tolerant sub-dict are all ignored, and an empty
structure reconstructs the defaults. -/
theorem claim_C7_witness :
    composition_state_from_dict [("zmagic", .vNull)] =
      composition_state_from_dict [] ∧
    composition_state_from_dict [("inset", .vDict [("zmagic", .vNull)])] =
      composition_state_from_dict [("inset", .vDict [])] ∧
    composition_state_from_dict [("shadow", .vDict [("zmagic", .vNull)])] =
      composition_state_from_dict [("shadow", .vDict [])] ∧
    composition_state_from_dict [("background", .vDict [("zmagic", .vNull)])] =
      composition_state_from_dict [("background", .vDict [])] ∧
    composition_state_from_dict [("output", .vDict [("zmagic", .vNull)])] =
      composition_state_from_dict [("output", .vDict [])] ∧
    composition_state_from_dict [] = some default_composition_state :=
  ⟨claim_C7_amended.2.1 [] "zmagic" .vNull (by decide),
   claim_C7_amended.2.2.1 [] [] "zmagic" .vNull (by decide),
   claim_C7_amended.2.2.2.1 [] [] "zmagic" .vNull (by decide),
   claim_C7_amended.2.2.2.2.1 [] [] "zmagic" .vNull (by decide),
   claim_C7_amended.2.2.2.2.2 [] [] "zmagic" .vNull (by decide),
   claim_C7_amended.1⟩

/-- Counterexample to claim C8 as stated: `border50_image` is an RGBA image
whose opaque (alpha > 250) bounding box exists and is exactly 50 x 50 —
"at least 50 x 50" per the claim — yet tier 1 does not crop to that box: the
source requires the box to be strictly larger than 50 px, so the image falls
through to the tier-2 shadow crop and comes out 52 x 52, not the 50 x 50 the
claimed crop would give. -/
theorem claim_C8_counterexample :
    border50_image.mode = "RGBA" ∧
    alpha_bbox border50_image 250 = some (1, 1, 51, 51) ∧
    (50 ≤ 51 - 1 ∧ 50 ≤ 51 - 1) ∧
    (strip_transparent_borders border50_image).width = 52 ∧
    (crop_image border50_image 1 1 51 51).width = 50 :=
  ⟨rfl, border50_bbox_250, by decide, by rw [strip_border50]; rfl, rfl⟩

/-- Claim C8, amended: for every RGBA image whose alpha > 250 bounding box
exists and is strictly larger than 50 px in both dimensions (the source
tests `> 50`, so boxes exactly 50 px wide or tall fall through to tier 2),
the border stripper returns the image cropped to that box. -/
theorem claim_C8_amended (img : PImage) (hmode : img.mode = "RGBA")
    (l t r b : ℕ) (hbb : alpha_bbox img 250 = some (l, t, r, b))
    (hw : 50 < r - l) (hh : 50 < b - t) :
    strip_transparent_borders img = crop_image img l t r b := by
  have hm : (img.mode ≠ "RGBA") = False := by simp [hmode]
  simp only [strip_transparent_borders, hm, ite_false, if_false, hbb]
  rw [if_pos ⟨hw, hh⟩]

/-- Witness for the amended claim C8: the fully opaque 51 x 51 image has
opaque box 51 x 51 (strictly above threshold) and tier 1 crops to it. -/
theorem claim_C8_witness :
    alpha_bbox opaque51_image 250 = some (0, 0, 51, 51) ∧
    strip_transparent_borders opaque51_image = crop_image opaque51_image 0 0 51 51 :=
  ⟨opaque51_bbox,
   claim_C8_amended opaque51_image rfl 0 0 51 51 opaque51_bbox (by decide) (by decide)⟩

/-- Claim C9 (confirmed). When the image at a path cannot be decoded,
`load_image` returns failure and the pipeline — stored input image, input
path, composition state, cache — is exactly what it was before the call. -/
theorem claim_C9_load_failure_keeps_state (fs : FileSys) (path : String)
    (p : CompositionPipeline) (h : fs path = none) :
    load_image fs path p = (false, p) := by
  unfold load_image
  rw [h]

/-- Witness for claim C9: a failing decode on a default pipeline. -/
theorem claim_C9_witness : load_image no_fs "shot.png" {} = (false, {}) :=
  claim_C9_load_failure_keeps_state no_fs "shot.png" {} rfl

/-- Claim C10 (confirmed). `update_state` called only with keyword names
that are no attribute of `CompositionState` raises nothing, leaves every
state field (and the rest of the pipeline) unchanged, yet still marks the
render cache invalid — so the next non-forced render recomputes exactly what
a forced render on the untouched pipeline would produce. -/
theorem claim_C10_unknown_update_invalidates_cache
    (kwargs : List (String × StateFieldValue)) (p : CompositionPipeline)
    (h : ∀ kv ∈ kwargs, kv.1 ∉ composition_state_attrs) :
    update_state kwargs p = { p with cache_valid := false } ∧
    ∀ (P : RenderPrims) (fs : FileSys),
      (pipeline_render P fs false (update_state kwargs p)).1 =
        (pipeline_render P fs true p).1 := by
  have h1 := update_state_unknown_keys kwargs p h
  refine ⟨h1, ?_⟩
  intro P fs
  rw [h1]
  unfold pipeline_render
  rcases hin : p.input_image with _ | img
  · simp [hin]
  · simp only [hin]
    rcases render_full P fs p.state img with ⟨_ | out, st2⟩ <;> simp

/-- Witness for claim C10: one unknown keyword on a default pipeline. -/
theorem claim_C10_witness :
    update_state [("bogus", .intV 3)] {} =
      { ({} : CompositionPipeline) with cache_valid := false } ∧
    ∀ (P : RenderPrims) (fs : FileSys),
      (pipeline_render P fs false (update_state [("bogus", .intV 3)] {})).1 =
        (pipeline_render P fs true ({} : CompositionPipeline)).1 :=
  claim_C10_unknown_update_invalidates_cache [("bogus", .intV 3)] {} (by decide)
